import Mathlib

/-!
Verification development for the moonshine-wrangler preset conversion and
canonicalization engine.

The Python sources are shallowly embedded:
* `fuse_json_adaptors.py` — `RangeAdaptor`, `ContinuousValuedParameterAdaptor`,
  `StringChoiceParameterAdaptor`, `BooleanParameterAdaptor`;
* `fuse_json_converters.py` — the module-converter registry, `fuse_mc_lookup`,
  `fuse_pc_lookup`, `convert_fuse_module` and the preset assembler `fuse_to_json`;
* `_extract_lt_json_metadata.py` — `_make_preset_canonical` and the preset part
  of `_get_node_type_and_name`;
* `_get_working_resources.py` — `filter_fender_id`, `filter_name_chars`.

Python numbers are modelled exactly: `u16` native values as `ℤ`, floats as `ℚ`.
Two float models are used.  `RangeAdaptor.adapt`/`adaptFinish` carry the
interpolation as an exact rational and round once at the end (`roundq`, the
decimal rounding `format(x, ".Nf")` performs on the exact value of its binary64
argument); this coincides with the program on the sentinel paths and at
binary64-exact values.  The in-range interpolation is additionally modelled
faithfully to the program's binary64 arithmetic: `fl64` rounds a rational to
the nearest 53-bit-significand dyadic (ties to even), `lerpF64` applies it at
every intermediate operation in the source's evaluation order, and
`RangeAdaptor.adaptF64` is `adapt` over that pipeline.  The two models differ:
for the delay-time adaptor the exact interpolation lands on 3-decimal ties at
some in-range natives (e.g. 3072 and 10752) while the computed double lies off
the tie, so the program's output is not the rounded exact interpolation there.
Python exceptions are modelled by an error monad (`Except PyExn`), and in-place
dictionary mutation by explicitly returning the caller-visible state.
-/

/-- The Python exceptions that the embedded code can raise. -/
inductive PyExn where
  | assertionError (msg : String)
  | runtimeError (msg : String)
  | indexError
  | typeError
  | valueError
  | attributeError
  | keyError
  | zeroDivisionError
deriving DecidableEq, Repr

/-- `str(e)` for the exceptions above, as used when an exception is turned into
a diagnostic string.  A bare Python `assert` gives `str(e) = ""`.  The texts of
the built-in exception messages only ever matter up to equality with each
other, so fixed representative texts are used. -/
def pyStr : PyExn → String
  | .assertionError m => m
  | .runtimeError m => m
  | .indexError => "list index out of range"
  | .typeError => "int() argument must be a string or a number, not NoneType"
  | .valueError => "invalid literal for int() with base 10"
  | .attributeError => "tuple object has no attribute get"
  | .keyError => "KeyError"
  | .zeroDivisionError => "division by zero"

/-- Round a rational to an integer, ties to even (the rounding used by Python
`format(x, ".Nf")` at the last kept digit). -/
def rndHalfEven (q : ℚ) : ℤ :=
  let f := ⌊q⌋
  let r := q - f
  if r < 1/2 then f
  else if 1/2 < r then f + 1
  else if f % 2 = 0 then f else f + 1

/-- `q` rounded to `prec` decimal places, ties to even: the decimal rounding
that `format(x, ".precf")` performs on the exact rational value of its binary64
argument.  The numeric value of `float(format(x, ".precf"))` is
`fl64 (roundq prec x)`, which equals `roundq prec x` itself exactly when the
rounded decimal is binary64-representable. -/
def roundq (prec : Nat) (q : ℚ) : ℚ :=
  (rndHalfEven (q * (10 : ℚ) ^ prec) : ℚ) / (10 : ℚ) ^ prec

/-- Left-pad a digit string with zeros to width `n`. -/
def padZeros (s : String) (n : Nat) : String :=
  if s.length < n then String.mk (List.replicate (n - s.length) '0') ++ s else s

/-- The text of `format(q, ".precf")` (minimum field widths such as the "2" of
`"2.1f"` never force padding for the values the sources produce, so they are
not modelled). -/
def formatFixed (prec : Nat) (q : ℚ) : String :=
  let n := rndHalfEven (q * (10 : ℚ) ^ prec)
  let sign := if n < 0 then "-" else ""
  let m := n.natAbs
  if prec = 0 then sign ++ toString m
  else sign ++ toString (m / 10 ^ prec) ++ "." ++ padZeros (toString (m % 10 ^ prec)) prec

/-- `fuse_json_adaptors.RangeAdaptor.__init__` fields.  `prec` is the decimal
precision of the Python `format` field (every adaptor the sources construct
sets one); `int_out` records whether `min_out` is a Python `int`, which selects
the `int(value_out_str)` return branch. -/
structure RangeAdaptor where
  min_in : ℚ
  max_in : ℚ
  min_out : ℚ
  max_out : ℚ
  int_out : Bool
  prec : Nat
  suffix : String
deriving DecidableEq, Repr

/-- The formatting tail of `RangeAdaptor.adapt` (source lines 55-63): format
`value_out`, then return the numeric reading of the formatted string together
with the string plus suffix.  This is the exact-rational model of the tail:
the returned number is `roundq ra.prec value_out` rather than the binary64
reading `fl64 (roundq ra.prec value_out)` that `float(value_out_str)` yields,
so it agrees with the program exactly when that rounded decimal is
binary64-representable — in particular on the sentinel paths, whose
`value_out` is a stored bound.  The fully binary64-faithful tail is
`RangeAdaptor.adaptFinishF64`. -/
def RangeAdaptor.adaptFinish (ra : RangeAdaptor) (value_out : ℚ) : Except PyExn (ℚ × String) :=
  let value_out_str := formatFixed ra.prec value_out
  if ra.int_out then
    -- `int(value_out_str)` succeeds only when the string has no decimal point
    if ra.prec = 0 then .ok (roundq 0 value_out, value_out_str ++ ra.suffix)
    else .error .valueError
  else .ok (roundq ra.prec value_out, value_out_str ++ ra.suffix)

/-- `fuse_json_adaptors.RangeAdaptor.adapt` (source lines 35-63).  Sentinel
native values are tolerated only for the default FUSE range 0x0300-0xFF00;
the failing `assert`s become `assertionError ""` (a bare Python assert).
The in-range interpolation is carried as an exact rational here; the
binary64-faithful version of the same source lines is
`RangeAdaptor.adaptF64`. -/
def RangeAdaptor.adapt (ra : RangeAdaptor) (value_in : ℚ) : Except PyExn (ℚ × String) :=
  let value_out? : Except PyExn (Option ℚ) :=
    if ra.min_in = (0x0300 : ℚ) ∧ ra.max_in = (0xFF00 : ℚ) then
      if value_in < ra.min_in then
        if value_in = 0 ∨ value_in = 256 then .ok (some ra.min_out)
        else .error (.assertionError "")
      else if value_in > ra.max_in then
        if value_in = 65535 then .ok (some ra.max_out)
        else .error (.assertionError "")
      else .ok none
    else .ok none
  match value_out? with
  | .error e => .error e
  | .ok (some vo) => ra.adaptFinish vo
  | .ok none =>
      if ra.max_in - ra.min_in = 0 then .error .zeroDivisionError
      else
        ra.adaptFinish
          (ra.min_out + (value_in - ra.min_in) * (ra.max_out - ra.min_out) / (ra.max_in - ra.min_in))

/-- `fuse_json_adaptors.ContinuousValuedParameterAdaptor`: the FUSE-to-JSON
range adaptor (always with format `".3f"`) plus the UI range adaptors. -/
structure ContinuousValuedParameterAdaptor where
  fuse_to_json_ra : RangeAdaptor
  ui_range_adaptors : List RangeAdaptor
deriving DecidableEq, Repr

/-- `ContinuousValuedParameterAdaptor.fuse_to_json` (source lines 103-104). -/
def ContinuousValuedParameterAdaptor.fuse_to_json
    (a : ContinuousValuedParameterAdaptor) (fuse_value : ℚ) : Except PyExn ℚ :=
  (a.fuse_to_json_ra.adapt fuse_value).map Prod.fst

/-- `ContinuousValuedParameterAdaptor.json_to_ui` (source lines 106-111). -/
def ContinuousValuedParameterAdaptor.json_to_ui
    (a : ContinuousValuedParameterAdaptor) (json_value : ℚ) : Except PyExn String := do
  let ui_values ← a.ui_range_adaptors.mapM (fun ui_ra => (ui_ra.adapt json_value).map Prod.snd)
  pure (String.intercalate "/" ui_values)

/-- The default UI range adaptors built by `ContinuousValuedParameterAdaptor.__init__`
(source lines 94-101): knob position `"2.1f"` on 1.0-10.0 and percentage `".0f"`. -/
def default_ui_range_adaptors : List RangeAdaptor :=
  [{ min_in := 0, max_in := 1, min_out := 1, max_out := 10,
     int_out := false, prec := 1, suffix := "" },
   { min_in := 0, max_in := 1, min_out := 0, max_out := 100,
     int_out := false, prec := 0, suffix := "%" }]

/-- `fuse_json_converters.default_cvpa = CVPA()` (all defaults). -/
def default_cvpa : ContinuousValuedParameterAdaptor :=
  { fuse_to_json_ra :=
      { min_in := 0x0300, max_in := 0xFF00, min_out := 0, max_out := 1,
        int_out := false, prec := 3, suffix := "" },
    ui_range_adaptors := default_ui_range_adaptors }

/-- `fuse_json_converters.volume_cvpa` (source lines 40-57). -/
def volume_cvpa : ContinuousValuedParameterAdaptor :=
  { fuse_to_json_ra :=
      { min_in := 0x0300, max_in := 0xFF00, min_out := -60, max_out := 0,
        int_out := false, prec := 3, suffix := "" },
    ui_range_adaptors :=
      [{ min_in := -60, max_in := 0, min_out := 1, max_out := 10,
         int_out := false, prec := 1, suffix := "" },
       { min_in := -60, max_in := 0, min_out := 0, max_out := 100,
         int_out := false, prec := 0, suffix := "%" }] }

/-- `fuse_json_converters.delay_time_cvpa` (source lines 59-70); its UI adaptor
has integer bounds 30 and 1500, hence `int_out`.  The float fields are kept as
the decimal values the literals spell (`3/100`, `3/2`); the Python object
actually stores the binary64 values of those literals, which
`delay_time_cvpa_f64` records (`1.5` is binary-exact, `0.03` is not). -/
def delay_time_cvpa : ContinuousValuedParameterAdaptor :=
  { fuse_to_json_ra :=
      { min_in := 0x0300, max_in := 0xFF00, min_out := 3/100, max_out := 3/2,
        int_out := false, prec := 3, suffix := "" },
    ui_range_adaptors :=
      [{ min_in := 3/100, max_in := 3/2, min_out := 30, max_out := 1500,
         int_out := true, prec := 0, suffix := " ms" }] }

/-- `fuse_json_adaptors.StringChoiceParameterAdaptor`. -/
structure StringChoiceParameterAdaptor where
  json_strings : List String
  ui_strings : List (String × String)
deriving DecidableEq, Repr

/-- Python list indexing (negative indices address from the end, anything else
raises `IndexError`). -/
def pyListIndex {α : Type} (l : List α) (i : ℤ) : Except PyExn α :=
  let j := if i < 0 then i + l.length else i
  if 0 ≤ j then
    match l.get? j.toNat with
    | some a => .ok a
    | none => .error .indexError
  else .error .indexError

/-- Python dict lookup `d[k]` over an association list (raises `KeyError`). -/
def pyDictGet {β : Type} (l : List (String × β)) (k : String) : Except PyExn β :=
  match l.find? (fun p => p.1 == k) with
  | some p => .ok p.2
  | none => .error .keyError

/-- `StringChoiceParameterAdaptor.fuse_to_json = lambda v: self.json_strings[v]`. -/
def StringChoiceParameterAdaptor.fuse_to_json
    (a : StringChoiceParameterAdaptor) (v : ℤ) : Except PyExn String :=
  pyListIndex a.json_strings v

/-- `StringChoiceParameterAdaptor.json_to_ui = lambda v: self.ui_strings[v]`. -/
def StringChoiceParameterAdaptor.json_to_ui
    (a : StringChoiceParameterAdaptor) (v : String) : Except PyExn String :=
  pyDictGet a.ui_strings v

/-- `fuse_json_converters.low_med_hi_max_scpa` (source lines 72-75). -/
def low_med_hi_max_scpa : StringChoiceParameterAdaptor :=
  { json_strings := ["low", "medium", "high", "super"],
    ui_strings := [("low", "LOW"), ("medium", "MID"), ("high", "HIGH"), ("super", "MAX")] }

/-- A JSON parameter value: float, enumeration string, boolean, or the verbatim
raw text stored for an unconverted parameter. -/
inductive JsonValue where
  | num (q : ℚ)
  | str (s : String)
  | bool (b : Bool)
deriving DecidableEq, Repr

/-- The three parameter-adaptor kinds of `fuse_json_adaptors.py`. -/
inductive PAdaptor where
  | cvpa (a : ContinuousValuedParameterAdaptor)
  | scpa (a : StringChoiceParameterAdaptor)
  | bpa
deriving DecidableEq, Repr

/-- Dispatch of `parameter_adaptor.fuse_to_json(int(fuse_param_element.text))`.
`BooleanParameterAdaptor.fuse_to_json` is `v != 0`. -/
def PAdaptor.fuse_to_json : PAdaptor → ℤ → Except PyExn JsonValue
  | .cvpa a, v => (a.fuse_to_json (v : ℚ)).map JsonValue.num
  | .scpa a, v => (a.fuse_to_json v).map JsonValue.str
  | .bpa, v => .ok (.bool (v != 0))

/-- Dispatch of `parameter_adaptor.json_to_ui(adapted_value)`.  Each adaptor is
only ever fed the value kind it itself produced; a mismatched kind would be a
Python type error. -/
def PAdaptor.json_to_ui : PAdaptor → JsonValue → Except PyExn String
  | .cvpa a, .num q => a.json_to_ui q
  | .scpa a, .str t => a.json_to_ui t
  | .bpa, .bool b => .ok (if b then "TRUE" else "FALSE")
  | _, _ => .error .typeError

/-- `fuse_json_converters.EditableParamConverter` / `HiddenParamConverter`. -/
inductive ParamConverter where
  | editable (json_param_name ui_param_name : String) (parameter_adaptor : PAdaptor)
  | hidden (json_param_name : String) (parameter_adaptor : PAdaptor)
deriving DecidableEq, Repr

/-- `pc.json_param_name`. -/
def ParamConverter.json_param_name : ParamConverter → String
  | .editable n _ _ => n
  | .hidden n _ => n

/-- `pc.parameter_adaptor`. -/
def ParamConverter.parameter_adaptor : ParamConverter → PAdaptor
  | .editable _ _ a => a
  | .hidden _ a => a

/-- `isinstance(pc, EditableParamConverter)`. -/
def ParamConverter.isEditable : ParamConverter → Bool
  | .editable _ _ _ => true
  | .hidden _ _ => false

def pc_volume : ParamConverter := .editable "volume" "VOLUME" (.cvpa volume_cvpa)

def pc_gain : ParamConverter := .editable "gain" "GAIN" (.cvpa default_cvpa)

def pc_treble : ParamConverter := .editable "treble" "TREBLE" (.cvpa default_cvpa)

def pc_middle : ParamConverter := .editable "mid" "MIDDLE" (.cvpa default_cvpa)

def pc_bass : ParamConverter := .editable "bass" "BASS" (.cvpa default_cvpa)

def _pc_presence : ParamConverter := .hidden "presence" (.cvpa default_cvpa)

def _pc_resonance : ParamConverter := .hidden "_resonance" (.cvpa default_cvpa)

def _DEFAULT_AMP_PARAM_CONVERTERS : List (ℤ × ParamConverter) :=
  [(1, pc_gain), (0, pc_volume), (4, pc_treble), (5, pc_middle), (6, pc_bass),
   (7, _pc_presence), (8, _pc_resonance)]

def pc_level : ParamConverter := .editable "level" "LEVEL" (.cvpa default_cvpa)

def pc_low : ParamConverter := .editable "low" "LOW" (.cvpa default_cvpa)

def pc_mid : ParamConverter := .editable "mid" "MID" (.cvpa default_cvpa)

def pc_high : ParamConverter := .editable "high" "HIGH" (.cvpa default_cvpa)

def pc_compressor_type : ParamConverter := .editable "type" "TYPE" (.scpa low_med_hi_max_scpa)

def _OVERDRIVE_PARAM_CONVERTERS : List (ℤ × ParamConverter) :=
  [(0, pc_level), (1, pc_level), (2, pc_low), (3, pc_mid), (4, pc_high)]

def _COMPRESSOR_PARAM_CONVERTERS : List (ℤ × ParamConverter) :=
  [(0, pc_compressor_type)]

def pc_speed : ParamConverter := .editable "speed" "SPEED" (.cvpa default_cvpa)

def pc_depth : ParamConverter := .editable "depth" "DEPTH" (.cvpa default_cvpa)

def pc_feedback : ParamConverter := .editable "feedback" "FEEDBACK" (.cvpa default_cvpa)

def pc_phase : ParamConverter := .editable "phase" "PHASE" (.cvpa default_cvpa)

def _VIBRATONE_PARAM_CONVERTERS : List (ℤ × ParamConverter) :=
  [(0, pc_level), (1, pc_speed), (2, pc_depth), (3, pc_feedback), (4, pc_phase)]

def pc_wet_level : ParamConverter := .editable "wetLvl" "LEVEL" (.cvpa default_cvpa)

def pc_time : ParamConverter := .editable "time" "TIME" (.cvpa delay_time_cvpa)

def pc_delay_time : ParamConverter := .editable "dlyTime" "DELAY" (.cvpa delay_time_cvpa)

def pc_wow_and_flutter : ParamConverter := .editable "wowLevel" "WOW" (.cvpa default_cvpa)

def pc_stereo : ParamConverter := .hidden "stereo" .bpa

def pc_brightness : ParamConverter := .hidden "brightness" (.cvpa default_cvpa)

def pc_attenuation : ParamConverter := .hidden "attenuation" (.cvpa default_cvpa)

def _MONO_DELAY_PARAM_CONVERTERS : List (ℤ × ParamConverter) :=
  [(0, pc_level), (1, pc_time), (2, pc_feedback), (3, pc_brightness), (4, pc_attenuation)]

def _TAPE_DELAY_PARAM_CONVERTERS : List (ℤ × ParamConverter) :=
  [(0, pc_wet_level), (1, pc_delay_time), (2, pc_feedback), (3, pc_wow_and_flutter),
   (4, pc_brightness), (5, pc_stereo)]

def pc_decay : ParamConverter := .editable "decay" "DECAY" (.cvpa default_cvpa)

def pc_dwell : ParamConverter := .editable "dwell" "DWELL" (.cvpa default_cvpa)

def pc_diffusion : ParamConverter := .editable "diffuse" "DIFFUSE" (.cvpa default_cvpa)

def pc_tone : ParamConverter := .editable "tone" "TONE" (.cvpa default_cvpa)

def _DEFAULT_REVERB_PARAM_CONVERTERS : List (ℤ × ParamConverter) :=
  [(0, pc_level), (1, pc_decay), (2, pc_dwell), (3, pc_diffusion), (4, pc_tone)]

/-- The `param_converters` field of a `ModuleConverter`: either a dict keyed by
native parameter position, the empty tuple `()` used for the passthrough entry
(which is not `None` but has no `.get`, so looking a parameter up in it raises
`AttributeError`), or Python `None`. -/
inductive PCColl where
  | dict (entries : List (ℤ × ParamConverter))
  | emptyTuple
  | noneColl
deriving DecidableEq, Repr

/-- `fuse_json_converters.ModuleConverter` namedtuple. -/
structure ModuleConverter where
  fuse_type : Option String
  fuse_id : ℤ
  json_id : String
  ui_name : String
  param_converters : PCColl
deriving DecidableEq, Repr

/-- `fuse_json_converters._MODULE_CONVERTERS` (the complete registry). -/
def _MODULE_CONVERTERS : List ModuleConverter :=
  [{ fuse_type := some "Amplifier", fuse_id := 83, json_id := "Deluxe65",
     ui_name := "DELUXE CLN", param_converters := .dict _DEFAULT_AMP_PARAM_CONVERTERS },
   { fuse_type := some "Amplifier", fuse_id := 114, json_id := "SuperSonic",
     ui_name := "BURN", param_converters := .dict _DEFAULT_AMP_PARAM_CONVERTERS },
   { fuse_type := some "Amplifier", fuse_id := 117, json_id := "Twin65",
     ui_name := "TWIN CLEAN", param_converters := .dict _DEFAULT_AMP_PARAM_CONVERTERS },
   { fuse_type := some "Amplifier", fuse_id := 249, json_id := "Ac30Tb",
     ui_name := "60S UK CLEAN", param_converters := .dict _DEFAULT_AMP_PARAM_CONVERTERS },
   { fuse_type := some "Stompbox", fuse_id := 60, json_id := "Overdrive",
     ui_name := "OVERDRIVE", param_converters := .dict _OVERDRIVE_PARAM_CONVERTERS },
   { fuse_type := some "Stompbox", fuse_id := 136, json_id := "SimpleCompressor",
     ui_name := "COMPRESSOR", param_converters := .dict _COMPRESSOR_PARAM_CONVERTERS },
   { fuse_type := some "Modulation", fuse_id := 45, json_id := "Vibratone",
     ui_name := "VIBRATONE", param_converters := .dict _VIBRATONE_PARAM_CONVERTERS },
   { fuse_type := some "Delay", fuse_id := 22, json_id := "MonoDelay",
     ui_name := "DELAY", param_converters := .dict _MONO_DELAY_PARAM_CONVERTERS },
   { fuse_type := some "Delay", fuse_id := 43, json_id := "TapeDelayLite",
     ui_name := "ECHO", param_converters := .dict _TAPE_DELAY_PARAM_CONVERTERS },
   { fuse_type := some "Reverb", fuse_id := 11, json_id := "Spring65",
     ui_name := "SPRING 65", param_converters := .dict _DEFAULT_REVERB_PARAM_CONVERTERS },
   { fuse_type := some "Reverb", fuse_id := 58, json_id := "LargeHall",
     ui_name := "LARGE HALL", param_converters := .dict _DEFAULT_REVERB_PARAM_CONVERTERS },
   { fuse_type := none, fuse_id := 0, json_id := "Passthru",
     ui_name := "NONE", param_converters := .emptyTuple }]

/-- `fuse_json_converters.fuse_mc_lookup` (source lines 226-239): the unique
registry entry matching the id whose type is `None` or the requested type;
the `assert len(matching_mcs) == 1` carries the shown message. -/
def fuse_mc_lookup (fuse_module_type : String) (fuse_module_id : ℤ) :
    Except PyExn ModuleConverter :=
  match _MODULE_CONVERTERS.filter
      (fun mc => mc.fuse_id == fuse_module_id &&
        (mc.fuse_type == none || mc.fuse_type == some fuse_module_type)) with
  | [mc] => .ok mc
  | _ =>
      .error (.assertionError
        ("Converter not found for " ++ fuse_module_type ++ " " ++ toString fuse_module_id))

/-- `fuse_json_converters.fuse_pc_lookup` (source lines 242-246).  A `dict`
collection answers `.get(fuse_param_id, None)`; the passthrough entry's `()`
has no `.get` and raises `AttributeError`. -/
def fuse_pc_lookup (mc : ModuleConverter) (fuse_param_id : ℤ) :
    Except PyExn (Option ParamConverter) :=
  match mc.param_converters with
  | .noneColl => .ok none
  | .dict entries => .ok ((entries.find? (fun p => p.1 == fuse_param_id)).map Prod.snd)
  | .emptyTuple => .error .attributeError

/-- An XML element as seen through `xml.etree.ElementTree`: tag, attributes,
text content and child elements. -/
inductive XmlElement where
  | mk (tag : String) (attrib : List (String × String)) (text : String)
      (children : List XmlElement)

/-- The element's tag. -/
def XmlElement.tag : XmlElement → String
  | .mk t _ _ _ => t

/-- The element's attribute list. -/
def XmlElement.attrib : XmlElement → List (String × String)
  | .mk _ a _ _ => a

/-- The element's text content. -/
def XmlElement.text : XmlElement → String
  | .mk _ _ tx _ => tx

/-- The element's child elements. -/
def XmlElement.children : XmlElement → List XmlElement
  | .mk _ _ _ c => c

/-- `element.attrib.get(key)`. -/
def XmlElement.attribGet (e : XmlElement) (key : String) : Option String :=
  (e.attrib.find? (fun p => p.1 == key)).map Prod.snd

/-- `element[i]`, raising `IndexError` when out of range. -/
def XmlElement.child (e : XmlElement) (i : Nat) : Except PyExn XmlElement :=
  match e.children.get? i with
  | some c => .ok c
  | none => .error .indexError

/-- The value of a digit string (most significant digit first). -/
def digitsVal : List Char → Option Nat
  | [] => none
  | [c] => if c.isDigit then some (c.toNat - 48) else none
  | c :: rest =>
      if c.isDigit then
        match digitsVal rest with
        | some n => some ((c.toNat - 48) * 10 ^ rest.length + n)
        | none => none
      else none

/-- Python `int(s)` on a string: optional minus sign then decimal digits (the
only shapes occurring in the embedded data), `ValueError` otherwise, and
`TypeError` when applied to `None` is handled at the call sites. -/
def pyInt (s : String) : Except PyExn ℤ :=
  match s.data with
  | '-' :: rest =>
      match digitsVal rest with
      | some n => .ok (-(n : ℤ))
      | none => .error .valueError
  | ds =>
      match digitsVal ds with
      | some n => .ok (n : ℤ)
      | none => .error .valueError

/-- Python dict assignment `d[k] = v` on an insertion-ordered association
list: overwrite in place if the key exists, else append. -/
def dictSet {β : Type} (l : List (String × β)) (k : String) (v : β) : List (String × β) :=
  if l.any (fun p => p.1 == k) then l.map (fun p => if p.1 == k then (k, v) else p)
  else l ++ [(k, v)]

/-- The JSON-side dictionary built for one module. -/
structure JsonModule where
  fenderId : String
  dspUnitParameters : List (String × JsonValue)
deriving DecidableEq, Repr

/-- The UI-side dictionary built for one module. -/
structure UiModule where
  module_type : Option String
  module_name : String
  params : List (String × String)
deriving DecidableEq, Repr

/-- The body of the per-parameter `try` block of `convert_fuse_module` (source
lines 262-284): resolve the slot, adapt the value (or store it verbatim under
a synthetic name), and update both maps.  The call is made with
`unconverted_param_values = None`, so the frequency-table branch is skipped
exactly as in the source. -/
def convert_param_body (mc : ModuleConverter) (fuse_param_id : ℤ) (p : XmlElement)
    (json_params : List (String × JsonValue)) (ui_params : List (String × String)) :
    Except PyExn (List (String × JsonValue) × List (String × String)) := do
  let pc? ← fuse_pc_lookup mc fuse_param_id
  match pc? with
  | some pc => do
      let v ← pyInt p.text
      let adapted_value ← pc.parameter_adaptor.fuse_to_json v
      -- the source's `adapted_value is None` continue-branch is unreachable:
      -- every adaptor either raises or returns a value
      let json_params := dictSet json_params pc.json_param_name adapted_value
      match pc with
      | .editable _ ui_name ad => do
          let ui_value ← ad.json_to_ui adapted_value
          pure (json_params, dictSet ui_params ui_name ui_value)
      | .hidden _ _ => pure (json_params, ui_params)
  | none =>
      pure (dictSet json_params ("__" ++ toString fuse_param_id) (.str p.text), ui_params)

/-- The parameter loop of `convert_fuse_module` (source lines 259-289).
`int(...ControlIndex)` is evaluated outside the `try`, so its errors escape;
everything raised inside the `try` is converted to the `RuntimeError` whose
message names the module type, id and parameter. -/
def convert_params (mc : ModuleConverter) :
    List XmlElement → List (String × JsonValue) → List (String × String) →
    Except PyExn (List (String × JsonValue) × List (String × String))
  | [], json_params, ui_params => .ok (json_params, ui_params)
  | p :: rest, json_params, ui_params => do
      let pidStr ←
        match p.attribGet "ControlIndex" with
        | none => Except.error PyExn.typeError
        | some s => Except.ok s
      let fuse_param_id ← pyInt pidStr
      match convert_param_body mc fuse_param_id p json_params ui_params with
      | .ok (jp, up) => convert_params mc rest jp up
      | .error _ =>
          .error (.runtimeError
            ("Attempting to process " ++
              (match mc.fuse_type with | some t => t | none => "None") ++ " " ++
              toString mc.fuse_id ++ " param " ++ toString fuse_param_id))

/-- `fuse_json_converters.convert_fuse_module` (source lines 249-294). -/
def convert_fuse_module (fuse_module_type : String) (fuse_module_element : XmlElement) :
    Except PyExn (JsonModule × UiModule) := do
  let inner ← fuse_module_element.child 0
  let idStr ←
    match inner.attribGet "ID" with
    | none => Except.error PyExn.typeError
    | some s => Except.ok s
  let fuse_id ← pyInt idStr
  let mc ← fuse_mc_lookup fuse_module_type fuse_id
  let (json_params, ui_params) ← convert_params mc inner.children [] []
  pure ({ fenderId := mc.json_id, dspUnitParameters := json_params },
        { module_type := mc.fuse_type, module_name := mc.ui_name, params := ui_params })

/-- Extraction and tag checks of the five slot elements (source lines 313-326).
The bare `assert`s carry no message, so a failing one raises
`AssertionError("")`. -/
def extractSlots (root : XmlElement) :
    Except PyExn (XmlElement × XmlElement × XmlElement × XmlElement × XmlElement) := do
  let fuse_amp_element ← root.child 0
  if fuse_amp_element.tag = "Amplifier" then pure () else throw (.assertionError "")
  let second ← root.child 1
  let fuse_stomp_element ← second.child 0
  if fuse_stomp_element.tag = "Stompbox" then pure () else throw (.assertionError "")
  let fuse_mod_element ← second.child 1
  if fuse_mod_element.tag = "Modulation" then pure () else throw (.assertionError "")
  let fuse_delay_element ← second.child 2
  if fuse_delay_element.tag = "Delay" then pure () else throw (.assertionError "")
  let fuse_reverb_element ← second.child 3
  if fuse_reverb_element.tag = "Reverb" then pure () else throw (.assertionError "")
  pure (fuse_amp_element, fuse_stomp_element, fuse_mod_element,
        fuse_delay_element, fuse_reverb_element)

/-- Append a problem message exactly when it is not already present (source
lines 344-349 and 351-356). -/
def dedupAppend (problems : List String) (problem : String) : List String :=
  if problem ∈ problems then problems else problems ++ [problem]

/-- One iteration of the assembler loop (source lines 334-349): a successful
conversion appends to both module lists; an `AssertionError` appends its
message to the problem list unconditionally; any other exception's text is
appended with deduplication. -/
def assembleStep (st : List String × List JsonModule × List UiModule) (elt : XmlElement) :
    List String × List JsonModule × List UiModule :=
  match convert_fuse_module elt.tag elt with
  | .ok (j, u) => (st.1, st.2.1 ++ [j], st.2.2 ++ [u])
  | .error (.assertionError m) => (st.1 ++ [m], st.2.1, st.2.2)
  | .error e => (dedupAppend st.1 (pyStr e), st.2.1, st.2.2)

/-- `fuse_json_converters.fuse_to_json` (source lines 297-358), on an already
parsed document root (the stream handling around `ET.fromstring` is I/O).
Note the iteration list of source lines 328-333: six elements, with the
amplifier element appearing both first and fourth. -/
def fuse_to_json (root : XmlElement) : List String × List JsonModule × List UiModule :=
  match extractSlots root with
  | .error e => (dedupAppend [] (pyStr e), [], [])
  | .ok (fuse_amp_element, fuse_stomp_element, fuse_mod_element,
         fuse_delay_element, fuse_reverb_element) =>
      [fuse_amp_element,
       fuse_stomp_element, fuse_mod_element,
       fuse_amp_element,
       fuse_delay_element, fuse_reverb_element].foldl assembleStep ([], [], [])

/-- Python `s.replace(pat, "")` on character lists, with the scanned list's
length as structural fuel: each non-overlapping occurrence of `pat`, left to
right, is removed; scanning continues after the removed occurrence. -/
def replaceRemFuel (pat : List Char) : Nat → List Char → List Char
  | _, [] => []
  | 0, l => l
  | fuel + 1, c :: rest =>
      if pat ≠ [] ∧ pat.isPrefixOf (c :: rest) then
        replaceRemFuel pat fuel ((c :: rest).drop pat.length)
      else c :: replaceRemFuel pat fuel rest

/-- Python `s.replace(pat, "")`. -/
def pyReplaceRemove (s pat : String) : String :=
  String.mk (replaceRemFuel pat.data s.data.length s.data)

/-- `_get_working_resources.filter_fender_id` (source lines 183-187): remove
every occurrence of each listed substring, the substrings taken successively
in this order. -/
def filter_fender_id (s : String) : String :=
  ["DUBS_Mustang", "DUBS_", "Reverb", "ACD_", "GT"].foldl pyReplaceRemove s

/-- `_get_working_resources.filter_name_chars` (source lines 178-180): map
spaces to underscores, then keep only alphanumerics and underscores. -/
def filter_name_chars (s : String) : String :=
  String.mk (((s.data.map (fun c => if c = ' ' then '_' else c)).filter
    (fun c => c.isAlphanum || c == '_')))

/-- One node of a preset candidate's `audioGraph.nodes` array: its `nodeId`,
its `FenderId` and its `dspUnitParameters` dictionary (parameter values kept
as their serialized text, which is all canonicalization looks at). -/
structure PresetNode where
  nodeId : String
  fenderId : String
  dspUnitParameters : List (String × String)
deriving DecidableEq, Repr

/-- A preset candidate document: `info.product_id`, `info.displayName`,
`audioGraph.nodes` and `audioGraph.connections` (modelled as input/output
node-id pairs; `none` means the key has been deleted). -/
structure PresetDoc where
  product_id : String
  displayName : String
  nodes : List PresetNode
  connections : Option (List (String × String))
deriving DecidableEq, Repr

/-- The fixed per-family processing order assumed by `_make_preset_canonical`
(source lines 80-84). -/
def required_order (product_id : String) : List String :=
  if product_id = "rumble-lt" then ["stomp", "mod", "amp", "eq", "delay"]
  else ["stomp", "mod", "amp", "delay", "reverb"]

/-- The in-place mutation applied to the node selected for a slot (source
lines 99-101): a `DUBS_Passthru` node's parameter block is cleared, then the
`FenderId` is filtered. -/
def canonicalizeNode (n : PresetNode) : PresetNode :=
  { nodeId := n.nodeId,
    fenderId := filter_fender_id n.fenderId,
    dspUnitParameters :=
      if n.fenderId = "DUBS_Passthru" then [] else n.dspUnitParameters }

/-- The reordering loop of `_make_preset_canonical` (source lines 87-107) over
the remaining category slots.  `i` is the current slot index (for the printed
diagnostic).  Returns the printed diagnostics, the reordered node list when
every slot found exactly one node (destructuring `(next_node,) = [...]` raises
`ValueError` otherwise), and the state of the (shared, mutated in place)
`audioGraph.nodes` array when the loop stopped. -/
def canonLoop (i : Nat) (cats : List String) (nodes acc : List PresetNode) :
    List String × Option (List PresetNode) × List PresetNode :=
  match cats with
  | [] => ([], some acc, nodes)
  | cat :: rest =>
      match nodes.filter (fun n => n.nodeId == cat) with
      | [n] =>
          canonLoop (i + 1) rest
            (nodes.map (fun m => if m.nodeId == cat then canonicalizeNode m else m))
            (acc ++ [canonicalizeNode n])
      | _ => (["Missing expected node " ++ toString i ++ " : " ++ cat], none, nodes)

/-- `_extract_lt_json_metadata._make_preset_canonical` (source lines 45-109).

The result triple is (diagnostics printed, returned value, caller-visible
state of the `candidate_dict` object after the call).  The source's
`candidate_dict = original_dict` on failure only rebinds the local name, so
the deletion of `connections` and the node mutations performed before the
failing slot stay visible to the caller; the third component records exactly
that object state. -/
def _make_preset_canonical (d : PresetDoc) :
    List String × Except PyExn (Option PresetDoc) × PresetDoc :=
  if d.nodes.length ≠ 5 then ([], .ok none, d)
  else
    match d.connections with
    | none => ([], .error .keyError, d)  -- `del` of an absent key
    | some _ =>
        let d1 : PresetDoc := { d with connections := none }
        match canonLoop 0 (required_order d.product_id) d1.nodes [] with
        | (diags, some reordered_nodes, _) =>
            let d2 := { d1 with nodes := reordered_nodes }
            (diags, .ok (some d2), d2)
        | (diags, none, nodes_after) =>
            (diags, .ok none, { d1 with nodes := nodes_after })

/-- The returned canonical document of a `_make_preset_canonical` call, or
`none` when the call returned `None` or raised. -/
def canonResult (d : PresetDoc) : Option PresetDoc :=
  match (_make_preset_canonical d).2.1 with
  | .ok o => o
  | .error _ => none

/-- Insert a key/value pair into a key-sorted association list. -/
def insertByKey (p : String × String) : List (String × String) → List (String × String)
  | [] => [p]
  | q :: rest => if p.1 < q.1 then p :: q :: rest else q :: insertByKey p rest

/-- Sort an association list by key (the `sort_keys=True` of `json.dumps`). -/
def sortByKey (l : List (String × String)) : List (String × String) :=
  l.foldr insertByKey []

/-- Quote a JSON string (the embedded names contain no characters that need
escaping). -/
def jsonQuote (s : String) : String := "\"" ++ s ++ "\""

/-- Serialize a parameter dictionary with sorted keys. -/
def serializeParams (ps : List (String × String)) : String :=
  "\x7b" ++ String.intercalate ", "
    ((sortByKey ps).map (fun p => jsonQuote p.1 ++ ": " ++ jsonQuote p.2)) ++ "\x7d"

/-- Serialize one node with its keys in sorted order
(`FenderId` < `dspUnitParameters` < `nodeId`). -/
def serializeNode (n : PresetNode) : String :=
  "\x7b" ++ jsonQuote "FenderId" ++ ": " ++ jsonQuote n.fenderId ++ ", " ++
    jsonQuote "dspUnitParameters" ++ ": " ++ serializeParams n.dspUnitParameters ++ ", " ++
    jsonQuote "nodeId" ++ ": " ++ jsonQuote n.nodeId ++ "\x7d"

/-- Serialize one connection entry. -/
def serializeConnection (c : String × String) : String :=
  "\x7b" ++ jsonQuote "input" ++ ": " ++ jsonQuote c.1 ++ ", " ++
    jsonQuote "output" ++ ": " ++ jsonQuote c.2 ++ "\x7d"

/-- The deterministic re-serialization
`json.dumps(candidate_dict, indent=4, sort_keys=True)` of a preset document
(source line 219), with all keys emitted in sorted order; the `connections`
key is present only when it has not been deleted.  Indentation whitespace is
not reproduced — it is a fixed function of the structure, so two documents
serialize byte-identically here exactly when they do in the source. -/
def serializeDoc (d : PresetDoc) : String :=
  "\x7b" ++ jsonQuote "audioGraph" ++ ": \x7b" ++
    (match d.connections with
     | some cs =>
         jsonQuote "connections" ++ ": [" ++
           String.intercalate ", " (cs.map serializeConnection) ++ "], "
     | none => "") ++
    jsonQuote "nodes" ++ ": [" ++
      String.intercalate ", " (d.nodes.map serializeNode) ++ "]\x7d, " ++
    jsonQuote "info" ++ ": \x7b" ++
      jsonQuote "displayName" ++ ": " ++ jsonQuote d.displayName ++ ", " ++
      jsonQuote "product_id" ++ ": " ++ jsonQuote d.product_id ++ "\x7d\x7d"

/-- The deduplication fingerprint of a canonicalized document (source line
220): the first seven characters of a hash of the canonical serialization,
for any hash function `h`. -/
def fingerprint (h : String → String) (d : PresetDoc) : String :=
  (h (serializeDoc d)).take 7

/-- The `nodeType == "preset"` branch of
`_extract_lt_json_metadata._get_node_type_and_name` (source lines 131-144):
the candidate's classification, or `none` when canonicalization fails (the
candidate is then skipped by `find_fender_lt_json_snippets`).  A `KeyError`
escaping `_make_preset_canonical` is caught by the surrounding handler and
also yields `none`. -/
def _get_node_type_and_name_preset (d : PresetDoc) : Option (String × String) :=
  let node_name := filter_name_chars d.displayName
  match (_make_preset_canonical d).2.1 with
  | .ok (some _) => some ("preset", node_name)
  | .ok none => none
  | .error _ => none

/-- The evolution of the problem list over one assembler-loop element
(spec-side restatement of `assembleStep`'s first component, used to state how
diagnostics accumulate across all six elements). -/
def problemStep (problems : List String) (elt : XmlElement) : List String :=
  match convert_fuse_module elt.tag elt with
  | .ok _ => problems
  | .error (.assertionError m) => problems ++ [m]
  | .error e => dedupAppend problems (pyStr e)

/-- The JSON module produced for one loop element, when its conversion
succeeds. -/
def okJson (elt : XmlElement) : Option JsonModule :=
  (convert_fuse_module elt.tag elt).toOption.map Prod.fst

/-- The UI module produced for one loop element, when its conversion
succeeds. -/
def okUi (elt : XmlElement) : Option UiModule :=
  (convert_fuse_module elt.tag elt).toOption.map Prod.snd

/-- Whether a conversion outcome is an `AssertionError` (the one exception
kind the assembler appends to the problem list without deduplication). -/
def isAssertionFailure {α : Type} : Except PyExn α → Bool
  | .error (.assertionError _) => true
  | _ => false

/-- An `<Amplifier>` slot holding module id 83 (Deluxe65) with no parameter
elements. -/
def fuse_amp_83 : XmlElement := .mk "Amplifier" [] "" [.mk "Module" [("ID", "83")] "" []]

/-- A `<Stompbox>` slot holding module id 60 (Overdrive). -/
def fuse_stomp_60 : XmlElement := .mk "Stompbox" [] "" [.mk "Module" [("ID", "60")] "" []]

/-- A `<Modulation>` slot holding module id 45 (Vibratone). -/
def fuse_mod_45 : XmlElement := .mk "Modulation" [] "" [.mk "Module" [("ID", "45")] "" []]

/-- A `<Delay>` slot holding module id 22 (MonoDelay). -/
def fuse_delay_22 : XmlElement := .mk "Delay" [] "" [.mk "Module" [("ID", "22")] "" []]

/-- A `<Reverb>` slot holding module id 11 (Spring65). -/
def fuse_reverb_11 : XmlElement := .mk "Reverb" [] "" [.mk "Module" [("ID", "11")] "" []]

/-- A well-formed source document: all five slots present, correctly tagged,
every module known to the registry. -/
def fuse_doc_ok : XmlElement :=
  .mk "Preset" [] "" [fuse_amp_83,
    .mk "FX" [] "" [fuse_stomp_60, fuse_mod_45, fuse_delay_22, fuse_reverb_11]]

/-- An `<Amplifier>` slot holding the unregistered module id 999. -/
def fuse_amp_999 : XmlElement := .mk "Amplifier" [] "" [.mk "Module" [("ID", "999")] "" []]

/-- `fuse_doc_ok` with the amplifier module id replaced by the unknown 999. -/
def fuse_doc_bad_amp : XmlElement :=
  .mk "Preset" [] "" [fuse_amp_999,
    .mk "FX" [] "" [fuse_stomp_60, fuse_mod_45, fuse_delay_22, fuse_reverb_11]]

/-- A `<Stompbox>` slot holding the unregistered module id 999. -/
def fuse_stomp_999 : XmlElement := .mk "Stompbox" [] "" [.mk "Module" [("ID", "999")] "" []]

/-- `fuse_doc_ok` with the stomp module id replaced by the unknown 999. -/
def fuse_doc_bad_stomp : XmlElement :=
  .mk "Preset" [] "" [fuse_amp_83,
    .mk "FX" [] "" [fuse_stomp_999, fuse_mod_45, fuse_delay_22, fuse_reverb_11]]

/-- A document whose second slot carries the wrong tag (`Foo` instead of
`Stompbox`) while every module it contains is convertible. -/
def fuse_doc_wrong_tag : XmlElement :=
  .mk "Preset" [] "" [fuse_amp_83,
    .mk "FX" [] ""
      [.mk "Foo" [] "" [.mk "Module" [("ID", "60")] "" []],
       fuse_mod_45, fuse_delay_22, fuse_reverb_11]]

/-- An `<Amplifier>` slot (known id 83) whose parameter 0 carries the value
70000, outside the tolerated native domain. -/
def fuse_amp_bad_param : XmlElement :=
  .mk "Amplifier" [] "" [.mk "Module" [("ID", "83")] ""
    [.mk "Param" [("ControlIndex", "0")] "70000" []]]

/-- `fuse_doc_ok` with the out-of-domain parameter in the amplifier slot. -/
def fuse_doc_bad_param : XmlElement :=
  .mk "Preset" [] "" [fuse_amp_bad_param,
    .mk "FX" [] "" [fuse_stomp_60, fuse_mod_45, fuse_delay_22, fuse_reverb_11]]

/-- A five-node preset candidate with no `reverb` node (its fifth node is an
`eq`), whose passthrough stomp node carries explicit bypass parameters. -/
def lt_doc_fail : PresetDoc :=
  { product_id := "mustang-lt", displayName := "Demo Preset",
    nodes := [{ nodeId := "stomp", fenderId := "DUBS_Passthru",
                dspUnitParameters := [("bypass", "true"), ("bypassMode", "false")] },
              { nodeId := "mod", fenderId := "DUBS_Vibratone", dspUnitParameters := [] },
              { nodeId := "amp", fenderId := "DUBS_MustangDeluxe65", dspUnitParameters := [] },
              { nodeId := "delay", fenderId := "DUBS_MonoDelay", dspUnitParameters := [] },
              { nodeId := "eq", fenderId := "DUBS_GraphicEq", dspUnitParameters := [] }],
    connections := some [("preset", "stomp")] }

/-- The caller-visible state of `lt_doc_fail` after its failed
canonicalization: `connections` deleted and the four nodes processed before
the missing slot mutated in place. -/
def lt_doc_fail_after : PresetDoc :=
  { product_id := "mustang-lt", displayName := "Demo Preset",
    nodes := [{ nodeId := "stomp", fenderId := "Passthru", dspUnitParameters := [] },
              { nodeId := "mod", fenderId := "Vibratone", dspUnitParameters := [] },
              { nodeId := "amp", fenderId := "Deluxe65", dspUnitParameters := [] },
              { nodeId := "delay", fenderId := "MonoDelay", dspUnitParameters := [] },
              { nodeId := "eq", fenderId := "DUBS_GraphicEq", dspUnitParameters := [] }],
    connections := none }

/-- A canonicalizable five-node preset candidate (all five required
categories present). -/
def lt_doc_ok : PresetDoc :=
  { product_id := "mustang-lt", displayName := "Demo Preset",
    nodes := [{ nodeId := "stomp", fenderId := "DUBS_Passthru",
                dspUnitParameters := [("bypass", "true"), ("bypassMode", "false")] },
              { nodeId := "mod", fenderId := "DUBS_Vibratone", dspUnitParameters := [] },
              { nodeId := "amp", fenderId := "DUBS_MustangDeluxe65", dspUnitParameters := [] },
              { nodeId := "delay", fenderId := "DUBS_MonoDelay", dspUnitParameters := [] },
              { nodeId := "reverb", fenderId := "DUBS_ReverbSpring65", dspUnitParameters := [] }],
    connections := some [("preset", "stomp")] }

/-- The canonical document `_make_preset_canonical` returns for `lt_doc_ok`
(and for any reordering or bypass-variant of it). -/
def lt_doc_ok_canonical : PresetDoc :=
  { product_id := "mustang-lt", displayName := "Demo Preset",
    nodes := [{ nodeId := "stomp", fenderId := "Passthru", dspUnitParameters := [] },
              { nodeId := "mod", fenderId := "Vibratone", dspUnitParameters := [] },
              { nodeId := "amp", fenderId := "Deluxe65", dspUnitParameters := [] },
              { nodeId := "delay", fenderId := "MonoDelay", dspUnitParameters := [] },
              { nodeId := "reverb", fenderId := "Spring65", dspUnitParameters := [] }],
    connections := none }

/-- `lt_doc_ok` with its first two graph nodes supplied in the opposite
order. -/
def lt_doc_ok_swapped : PresetDoc :=
  { product_id := "mustang-lt", displayName := "Demo Preset",
    nodes := [{ nodeId := "mod", fenderId := "DUBS_Vibratone", dspUnitParameters := [] },
              { nodeId := "stomp", fenderId := "DUBS_Passthru",
                dspUnitParameters := [("bypass", "true"), ("bypassMode", "false")] },
              { nodeId := "amp", fenderId := "DUBS_MustangDeluxe65", dspUnitParameters := [] },
              { nodeId := "delay", fenderId := "DUBS_MonoDelay", dspUnitParameters := [] },
              { nodeId := "reverb", fenderId := "DUBS_ReverbSpring65", dspUnitParameters := [] }],
    connections := some [("preset", "stomp")] }

/-- `lt_doc_ok` with the explicit bypass parameters removed from its
passthrough stomp node. -/
def lt_doc_ok_nobypass : PresetDoc :=
  { product_id := "mustang-lt", displayName := "Demo Preset",
    nodes := [{ nodeId := "stomp", fenderId := "DUBS_Passthru", dspUnitParameters := [] },
              { nodeId := "mod", fenderId := "DUBS_Vibratone", dspUnitParameters := [] },
              { nodeId := "amp", fenderId := "DUBS_MustangDeluxe65", dspUnitParameters := [] },
              { nodeId := "delay", fenderId := "DUBS_MonoDelay", dspUnitParameters := [] },
              { nodeId := "reverb", fenderId := "DUBS_ReverbSpring65", dspUnitParameters := [] }],
    connections := some [("preset", "stomp")] }

/-- A five-node preset candidate with no `amp` node (slots 0 and 1 of its
required order each match exactly one node). -/
def lt_doc_missing_amp : PresetDoc :=
  { product_id := "mustang-lt", displayName := "Demo Preset",
    nodes := [{ nodeId := "stomp", fenderId := "DUBS_Passthru", dspUnitParameters := [] },
              { nodeId := "mod", fenderId := "DUBS_Vibratone", dspUnitParameters := [] },
              { nodeId := "delay", fenderId := "DUBS_MonoDelay", dspUnitParameters := [] },
              { nodeId := "reverb", fenderId := "DUBS_ReverbSpring65", dspUnitParameters := [] },
              { nodeId := "eq", fenderId := "DUBS_GraphicEq", dspUnitParameters := [] }],
    connections := some [("preset", "stomp")] }

/-- The relation between two node lists that differ only in the parameter
blocks of passthrough (`DUBS_Passthru`) nodes. -/
def nodeRel (a b : PresetNode) : Prop :=
  a = b ∨ (a.nodeId = b.nodeId ∧ a.fenderId = b.fenderId ∧ a.fenderId = "DUBS_Passthru")

/-- The construction performed by
`ContinuousValuedParameterAdaptor.__init__(fuse_min, fuse_max, json_min,
json_max, ui_range_adaptors)` (source lines 79-101): the FUSE-to-JSON range
adaptor always gets the `".3f"` format and no suffix, and `json_min` is a
Python float in every call the sources make. -/
def ContinuousValuedParameterAdaptor.make
    (fuse_min fuse_max json_min json_max : ℚ) (uis : List RangeAdaptor) :
    ContinuousValuedParameterAdaptor :=
  { fuse_to_json_ra :=
      { min_in := fuse_min, max_in := fuse_max, min_out := json_min, max_out := json_max,
        int_out := false, prec := 3, suffix := "" },
    ui_range_adaptors := uis }

/-- Round a rational to the nearest binary64 value (53-bit significand, ties
to even), for arguments in the normal range — the rounding IEEE-754 double
arithmetic applies to every operation result.  The binade exponent is
`Int.log 2 |q|`; the significand is scaled to `[2^52, 2^53)` and rounded with
`rndHalfEven`. -/
def fl64 (q : ℚ) : ℚ :=
  if q = 0 then 0
  else (rndHalfEven (q * (2 : ℚ) ^ ((52 : ℤ) - Int.log 2 |q|)) : ℚ) *
    (2 : ℚ) ^ (Int.log 2 |q| - (52 : ℤ))

/-- The binary64 evaluation of the interpolation expression of
`RangeAdaptor.adapt` (source lines 52-54), with every intermediate operation
rounded in the source's evaluation order:
`numerator = (value_in - min_in) * (max_out - min_out)`,
`denominator = max_in - min_in`, then
`value_out = min_out + numerator / denominator`. -/
def lerpF64 (min_in max_in min_out max_out v : ℚ) : ℚ :=
  fl64 (min_out +
    fl64 (fl64 (fl64 (v - min_in) * fl64 (max_out - min_out)) / fl64 (max_in - min_in)))

/-- `fuse_json_converters.delay_time_cvpa` with its float fields holding the
binary64 values the Python literals denote: `0.03` stores the double nearest
3/100, while 1.5, 30 and 1500 are binary-exact. -/
def delay_time_cvpa_f64 : ContinuousValuedParameterAdaptor :=
  { fuse_to_json_ra :=
      { min_in := 0x0300, max_in := 0xFF00, min_out := fl64 (3 / 100), max_out := 3 / 2,
        int_out := false, prec := 3, suffix := "" },
    ui_range_adaptors :=
      [{ min_in := fl64 (3 / 100), max_in := 3 / 2, min_out := 30, max_out := 1500,
         int_out := true, prec := 0, suffix := " ms" }] }

/-- The binary64-faithful formatting tail of `RangeAdaptor.adapt` (source
lines 55-63): `float(value_out_str)` reads the formatted decimal back as the
nearest double, i.e. `fl64 (roundq ra.prec value_out)`; `int(value_out_str)`
is exact. -/
def RangeAdaptor.adaptFinishF64 (ra : RangeAdaptor) (value_out : ℚ) :
    Except PyExn (ℚ × String) :=
  let value_out_str := formatFixed ra.prec value_out
  if ra.int_out then
    if ra.prec = 0 then .ok (roundq 0 value_out, value_out_str ++ ra.suffix)
    else .error .valueError
  else .ok (fl64 (roundq ra.prec value_out), value_out_str ++ ra.suffix)

/-- `fuse_json_adaptors.RangeAdaptor.adapt` (source lines 35-63) with the
in-range interpolation and the final `float` read-back performed in binary64
(`lerpF64`, `adaptFinishF64`).  The sentinel comparisons and the zero check
are exact in both models. -/
def RangeAdaptor.adaptF64 (ra : RangeAdaptor) (value_in : ℚ) : Except PyExn (ℚ × String) :=
  let value_out? : Except PyExn (Option ℚ) :=
    if ra.min_in = (0x0300 : ℚ) ∧ ra.max_in = (0xFF00 : ℚ) then
      if value_in < ra.min_in then
        if value_in = 0 ∨ value_in = 256 then .ok (some ra.min_out)
        else .error (.assertionError "")
      else if value_in > ra.max_in then
        if value_in = 65535 then .ok (some ra.max_out)
        else .error (.assertionError "")
      else .ok none
    else .ok none
  match value_out? with
  | .error e => .error e
  | .ok (some vo) => ra.adaptFinishF64 vo
  | .ok none =>
      if ra.max_in - ra.min_in = 0 then .error .zeroDivisionError
      else ra.adaptFinishF64 (lerpF64 ra.min_in ra.max_in ra.min_out ra.max_out value_in)

/-- `ContinuousValuedParameterAdaptor.fuse_to_json` (source lines 103-104)
over the binary64-faithful adaptor pipeline. -/
def ContinuousValuedParameterAdaptor.fuse_to_json_f64
    (a : ContinuousValuedParameterAdaptor) (fuse_value : ℚ) : Except PyExn ℚ :=
  (a.fuse_to_json_ra.adaptF64 fuse_value).map Prod.fst

/-- A five-node preset candidate with two `stomp` nodes and no `amp` node:
the whole category `amp` is missing, yet slot 0 already fails (its match is
not unique), so the printed diagnostic names `stomp`, not the missing
`amp`. -/
def lt_doc_two_stomps : PresetDoc :=
  { product_id := "mustang-lt", displayName := "Demo Preset",
    nodes := [{ nodeId := "stomp", fenderId := "DUBS_Passthru", dspUnitParameters := [] },
              { nodeId := "stomp", fenderId := "DUBS_Overdrive", dspUnitParameters := [] },
              { nodeId := "mod", fenderId := "DUBS_Vibratone", dspUnitParameters := [] },
              { nodeId := "delay", fenderId := "DUBS_MonoDelay", dspUnitParameters := [] },
              { nodeId := "reverb", fenderId := "DUBS_ReverbSpring65", dspUnitParameters := [] }],
    connections := some [("preset", "stomp")] }

/-- `rndHalfEven` fixes integers. -/
theorem rndHalfEven_intCast (n : ℤ) : rndHalfEven (n : ℚ) = n := by
  unfold rndHalfEven
  norm_num [Int.floor_intCast]

/-- A rational that is already exact at `prec` decimal places is fixed by
`roundq prec`. -/
theorem roundq_eq_self (prec : Nat) (q : ℚ) (n : ℤ)
    (h : (n : ℚ) = q * (10 : ℚ) ^ prec) : roundq prec q = q := by
  have hp : ((10 : ℚ)) ^ prec ≠ 0 := by positivity
  unfold roundq
  rw [← h, rndHalfEven_intCast, h]
  exact mul_div_cancel_right₀ q hp

/-- `roundq` fixes integer values. -/
theorem roundq_intCast (prec : Nat) (z : ℤ) : roundq prec ((z : ℚ)) = z :=
  roundq_eq_self prec _ (z * 10 ^ prec) (by push_cast; ring)

/-- `roundq 3` fixes 0. -/
theorem roundq_zero3 : roundq 3 (0 : ℚ) = 0 := by simpa using roundq_intCast 3 0

/-- `roundq 3` fixes 1. -/
theorem roundq_one3 : roundq 3 (1 : ℚ) = 1 := by simpa using roundq_intCast 3 1

/-- `roundq 3` fixes 1/2. -/
theorem roundq_half3 : roundq 3 ((1 : ℚ) / 2) = 1 / 2 :=
  roundq_eq_self 3 _ 500 (by norm_num)

/-- With a float `min_out`, the formatting tail returns the rounded value. -/
theorem RangeAdaptor.adaptFinish_float (ra : RangeAdaptor) (vo : ℚ)
    (h : ra.int_out = false) :
    ra.adaptFinish vo = .ok (roundq ra.prec vo, formatFixed ra.prec vo ++ ra.suffix) := by
  simp [RangeAdaptor.adaptFinish, h]

/-- For an in-range input, `adapt` always takes the linear-interpolation
branch (the sentinel checks cannot fire inside the native range). -/
theorem RangeAdaptor.adapt_in_range (ra : RangeAdaptor) (v : ℚ)
    (h1 : ra.min_in ≤ v) (h2 : v ≤ ra.max_in) (h3 : ra.min_in < ra.max_in) :
    ra.adapt v = ra.adaptFinish
      (ra.min_out + (v - ra.min_in) * (ra.max_out - ra.min_out) / (ra.max_in - ra.min_in)) := by
  have hne : ¬ (ra.max_in - ra.min_in = 0) := sub_ne_zero_of_ne (ne_of_gt h3)
  have hnlt : ¬ (v < ra.min_in) := not_lt.mpr h1
  have hngt : ¬ (v > ra.max_in) := not_lt.mpr h2
  unfold RangeAdaptor.adapt
  by_cases hd : ra.min_in = (0x0300 : ℚ) ∧ ra.max_in = (0xFF00 : ℚ)
  · have hnlt2 : ¬ v < (0x0300 : ℚ) := by rw [← hd.1]; exact hnlt
    have hngt2 : ¬ (0xFF00 : ℚ) < v := by rw [← hd.2]; exact hngt
    rw [hd.1, hd.2] at hne
    simp [hd, hnlt2, hngt2, hne]
  · simp [hd, hne]

/-- Evaluation rule for `rndHalfEven`: a value within less than one half above `n` rounds to `n`. -/
theorem rndHalfEven_eq_of_lt_half (x : ℚ) (n : ℤ)
    (h1 : (n : ℚ) ≤ x) (h2 : x - (n : ℚ) < 1/2) :
    rndHalfEven x = n := by
  have hf : ⌊x⌋ = n := by
    rw [Int.floor_eq_iff]
    constructor
    · exact h1
    · linarith
  unfold rndHalfEven
  simp only [hf]
  rw [if_pos h2]

/-- Evaluation rule for `rndHalfEven`: a value within less than one half below `n` rounds to `n`. -/
theorem rndHalfEven_eq_of_half_lt (x : ℚ) (n : ℤ)
    (h1 : (n : ℚ) - 1/2 < x) (h2 : x < (n : ℚ)) :
    rndHalfEven x = n := by
  have hf : ⌊x⌋ = n - 1 := by
    rw [Int.floor_eq_iff]
    constructor
    · push_cast
      linarith
    · push_cast
      linarith
  have hc1 : ¬ (x - ((n - 1 : ℤ) : ℚ) < 1/2) := by push_cast; linarith
  have hc2 : 1/2 < x - ((n - 1 : ℤ) : ℚ) := by push_cast; linarith
  unfold rndHalfEven
  simp only [hf]
  rw [if_neg hc1, if_pos hc2]
  omega

/-- Evaluation rule for `rndHalfEven`: an exact half above even `n` rounds down to `n`. -/
theorem rndHalfEven_eq_of_tie_even (x : ℚ) (n : ℤ)
    (h1 : x - (n : ℚ) = 1/2) (h2 : n % 2 = 0) :
    rndHalfEven x = n := by
  have hf : ⌊x⌋ = n := by
    rw [Int.floor_eq_iff]
    constructor
    · linarith
    · linarith
  have hc1 : ¬ (x - (n : ℚ) < 1/2) := by rw [h1]; norm_num
  have hc2 : ¬ ((1:ℚ)/2 < x - (n : ℚ)) := by rw [h1]; norm_num
  unfold rndHalfEven
  simp only [hf]
  rw [if_neg hc1, if_neg hc2, if_pos h2]

/-- Evaluation rule for `rndHalfEven`: an exact half below `n` with `n - 1` odd rounds up to `n`. -/
theorem rndHalfEven_eq_of_tie_odd (x : ℚ) (n : ℤ)
    (h1 : x + 1/2 = (n : ℚ)) (h2 : (n - 1) % 2 = 1) :
    rndHalfEven x = n := by
  have hf : ⌊x⌋ = n - 1 := by
    rw [Int.floor_eq_iff]
    constructor
    · push_cast
      linarith
    · push_cast
      linarith
  have hc1 : ¬ (x - ((n - 1 : ℤ) : ℚ) < 1/2) := by push_cast; linarith
  have hc2 : ¬ ((1:ℚ)/2 < x - ((n - 1 : ℤ) : ℚ)) := by push_cast; linarith
  have hc3 : ¬ ((n - 1) % 2 = 0) := by omega
  unfold rndHalfEven
  simp only [hf]
  rw [if_neg hc1, if_neg hc2, if_neg hc3]
  omega

/-- Characterization of the base-2 integer logarithm by its binade. -/
theorem int_log_two_eq (q : ℚ) (e : ℤ) (hq : 0 < q)
    (h1 : (2 : ℚ) ^ e ≤ q) (h2 : q < (2 : ℚ) ^ (e + 1)) : Int.log 2 q = e := by
  have ha := Int.zpow_log_le_self (b := 2) (by norm_num) hq
  have hb := Int.lt_zpow_succ_log_self (b := 2) (by norm_num) q
  have hcast : ((2 : ℕ) : ℚ) = (2 : ℚ) := by norm_num
  rw [hcast] at ha hb
  have e_le : e ≤ Int.log 2 q := by
    by_contra hcon
    push_neg at hcon
    have : (2 : ℚ) ^ (Int.log 2 q + 1) ≤ (2 : ℚ) ^ e := by
      apply zpow_le_zpow_right₀ (by norm_num)
      omega
    linarith
  have le_e : Int.log 2 q ≤ e := by
    by_contra hcon
    push_neg at hcon
    have : (2 : ℚ) ^ (e + 1) ≤ (2 : ℚ) ^ (Int.log 2 q) := by
      apply zpow_le_zpow_right₀ (by norm_num)
      omega
    linarith
  omega

/-- `fl64` fixes zero. -/
theorem fl64_zero : fl64 0 = 0 := by simp [fl64]

/-- Evaluation rule for `fl64` at a positive rational: binade `e`, scaled significand `x`, rounded significand `n`, value `d`. -/
theorem fl64_evalPos (q x : ℚ) (e n : ℤ) (d : ℚ)
    (hq : 0 < q)
    (h1 : (2 : ℚ) ^ e ≤ q) (h2 : q < (2 : ℚ) ^ (e + 1))
    (hx : q * (2 : ℚ) ^ ((52 : ℤ) - e) = x)
    (hr : rndHalfEven x = n)
    (hd : (n : ℚ) * (2 : ℚ) ^ (e - (52 : ℤ)) = d) :
    fl64 q = d := by
  have habs : |q| = q := abs_of_pos hq
  have hlog : Int.log 2 |q| = e := by rw [habs]; exact int_log_two_eq q e hq h1 h2
  unfold fl64
  rw [if_neg (ne_of_gt hq), hlog, hx, hr]
  exact hd

/-- A positive rational whose scaled significand is an integer is a binary64 value, fixed by `fl64`. -/
theorem fl64_exactPos (q : ℚ) (e n : ℤ)
    (hq : 0 < q) (h1 : (2 : ℚ) ^ e ≤ q) (h2 : q < (2 : ℚ) ^ (e + 1))
    (hn : q * (2 : ℚ) ^ ((52 : ℤ) - e) = (n : ℚ)) :
    fl64 q = q := by
  refine fl64_evalPos q ((n : ℚ)) e n q hq h1 h2 hn (rndHalfEven_intCast n) ?_
  rw [← hn, mul_assoc, ← zpow_add₀ (by norm_num : (2 : ℚ) ≠ 0)]
  have harith : ((52 : ℤ) - e) + (e - 52) = 0 := by ring
  rw [harith, zpow_zero, mul_one]

/-- `fl64` fixes the binary64 value -60. -/
theorem fl64_neg60 : fl64 (-60 : ℚ) = -60 := by
  have habs : |(-60 : ℚ)| = 60 := by norm_num
  have hlog : Int.log 2 (60 : ℚ) = 5 :=
    int_log_two_eq 60 5 (by norm_num) (by norm_num) (by norm_num)
  unfold fl64
  rw [if_neg (by norm_num), habs, hlog]
  rw [(by norm_num : (-60 : ℚ) * (2 : ℚ) ^ ((52 : ℤ) - 5) = ((-8444249301319680 : ℤ) : ℚ))]
  rw [rndHalfEven_intCast]
  norm_num

/-- Evaluation rule for `roundq`: scaled value `x`, rounded integer `n`, result `d`. -/
theorem roundq_eval (prec : ℕ) (q x : ℚ) (n : ℤ) (d : ℚ)
    (hx : q * (10 : ℚ) ^ prec = x)
    (hr : rndHalfEven x = n)
    (hd : (n : ℚ) / (10 : ℚ) ^ prec = d) :
    roundq prec q = d := by
  unfold roundq
  rw [hx, hr]
  exact hd

/-- Evaluation rule for `formatFixed` at 3 decimals and a nonnegative rounding. -/
theorem formatFixed_eval3 (q : ℚ) (n : ℕ)
    (hr : rndHalfEven (q * (10 : ℚ) ^ (3 : ℕ)) = (n : ℤ)) :
    formatFixed 3 q = toString (n / 10 ^ 3) ++ "." ++ padZeros (toString (n % 10 ^ 3)) 3 := by
  unfold formatFixed
  simp only [hr]
  have h1 : ¬ ((n : ℤ) < 0) := by omega
  have h2 : ((n : ℤ)).natAbs = n := Int.natAbs_ofNat n
  rw [if_neg h1, if_neg (by norm_num : ¬ ((3 : ℕ) = 0)), h2]
  simp

/-- With a float `min_out`, the binary64 formatting tail returns the rounded value read back as a double, and the formatted string. -/
theorem RangeAdaptor.adaptFinishF64_float (ra : RangeAdaptor) (vo : ℚ) (p : ℕ) (suf : String)
    (h : ra.int_out = false) (hp : ra.prec = p) (hs : ra.suffix = suf) :
    ra.adaptFinishF64 vo = .ok (fl64 (roundq p vo), formatFixed p vo ++ suf) := by
  subst hp hs
  simp [RangeAdaptor.adaptFinishF64, h]

/-- For an in-range input, `adaptF64` always takes the linear-interpolation branch; the field hypotheses let concrete adaptors be supplied with literal bounds. -/
theorem RangeAdaptor.adaptF64_in_range (ra : RangeAdaptor) (v a b c d : ℚ)
    (ha : ra.min_in = a) (hb : ra.max_in = b) (hc : ra.min_out = c) (hd : ra.max_out = d)
    (h1 : a ≤ v) (h2 : v ≤ b) (h3 : a < b) :
    ra.adaptF64 v = ra.adaptFinishF64 (lerpF64 a b c d v) := by
  subst ha hb hc hd
  have hne : ¬ (ra.max_in - ra.min_in = 0) :=
    sub_ne_zero_of_ne (ne_of_gt h3)
  have hnlt : ¬ (v < ra.min_in) := not_lt.mpr h1
  have hngt : ¬ (v > ra.max_in) := not_lt.mpr h2
  unfold RangeAdaptor.adaptF64
  by_cases hdd : ra.min_in = (0x0300 : ℚ) ∧ ra.max_in = (0xFF00 : ℚ)
  · have hnlt2 : ¬ v < (0x0300 : ℚ) := by rw [← hdd.1]; exact hnlt
    have hngt2 : ¬ (0xFF00 : ℚ) < v := by rw [← hdd.2]; exact hngt
    rw [hdd.1, hdd.2] at hne
    simp [hdd, hnlt2, hngt2, hne]
  · simp [hdd, hne]

/-- The delay-time adaptor's binary64 pipeline at the native minimum: the result is the stored double nearest 0.03, read back exactly by its 3-decimal formatting. -/
theorem delay_f64_at_768 :
    delay_time_cvpa_f64.fuse_to_json_ra.adaptF64 768 = .ok (fl64 (3 / 100), "0.030") := by
  have hr2 : rndHalfEven (216172782113783808 / 25) = 8646911284551352 :=
    rndHalfEven_eq_of_lt_half (216172782113783808 / 25) 8646911284551352 (by norm_num) (by norm_num)
  have h1 : fl64 (3 / 100) = 1080863910568919 / 36028797018963968 :=
    fl64_evalPos (3 / 100) (216172782113783808 / 25) (-6) 8646911284551352 (1080863910568919 / 36028797018963968) (by norm_num) (by norm_num) (by norm_num) (by norm_num) hr2 (by norm_num)
  have h3 : fl64 (0) = 0 := fl64_zero
  have hr5 : rndHalfEven (52962331617877033 / 8) = 6620291452234629 :=
    rndHalfEven_eq_of_lt_half (52962331617877033 / 8) 6620291452234629 (by norm_num) (by norm_num)
  have h4 : fl64 (52962331617877033 / 36028797018963968) = 6620291452234629 / 4503599627370496 :=
    fl64_evalPos (52962331617877033 / 36028797018963968) (52962331617877033 / 8) (0) 6620291452234629 (6620291452234629 / 4503599627370496) (by norm_num) (by norm_num) (by norm_num) (by norm_num) hr5 (by norm_num)
  have h7 : fl64 (64512) = 64512 :=
    fl64_exactPos (64512) (15) 8866461766385664 (by norm_num) (by norm_num) (by norm_num) (by norm_num)
  have h9 : fl64 (1080863910568919 / 36028797018963968) = 1080863910568919 / 36028797018963968 :=
    fl64_exactPos (1080863910568919 / 36028797018963968) (-6) 8646911284551352 (by norm_num) (by norm_num) (by norm_num) (by norm_num)
  have hr11 : rndHalfEven (135107988821114875 / 4503599627370496) = 30 :=
    rndHalfEven_eq_of_half_lt (135107988821114875 / 4503599627370496) 30 (by norm_num) (by norm_num)
  have h10 : roundq 3 (1080863910568919 / 36028797018963968) = 3 / 100 :=
    roundq_eval 3 (1080863910568919 / 36028797018963968) (135107988821114875 / 4503599627370496) (30) (3 / 100) (by norm_num) hr11 (by norm_num)
  have h12 : formatFixed 3 (1080863910568919 / 36028797018963968) = "0.030" := by
    rw [formatFixed_eval3 (1080863910568919 / 36028797018963968) 30
      (by rw [(by norm_num : (1080863910568919 / 36028797018963968 : ℚ) * (10 : ℚ) ^ (3 : ℕ) = 135107988821114875 / 4503599627370496)]; exact hr11)]
    decide
  have hL13 : lerpF64 768 65280 (fl64 (3 / 100)) (3 / 2) 768 = 1080863910568919 / 36028797018963968 := by
    unfold lerpF64
    rw [h1]
    rw [(by norm_num : (768 : ℚ) - 768 = 0)]
    rw [(by norm_num : (3 / 2 : ℚ) - (1080863910568919 / 36028797018963968) = 52962331617877033 / 36028797018963968)]
    rw [(by norm_num : (65280 : ℚ) - 768 = 64512)]
    rw [h3, h4, h7]
    rw [(by norm_num : (0 : ℚ) * (6620291452234629 / 4503599627370496) = 0)]
    rw [h3]
    rw [(by norm_num : (0 : ℚ) / (64512) = 0)]
    rw [h3]
    rw [(by norm_num : ((1080863910568919 / 36028797018963968) : ℚ) + (0) = 1080863910568919 / 36028797018963968)]
    rw [h9]
  rw [RangeAdaptor.adaptF64_in_range _ 768 768 65280 (fl64 (3 / 100)) (3 / 2) rfl rfl rfl rfl (by norm_num) (by norm_num) (by norm_num)]
  rw [RangeAdaptor.adaptFinishF64_float _ _ 3 "" rfl rfl rfl]
  rw [hL13, h10, h12]
  try rfl

/-- The delay-time adaptor's binary64 pipeline at the native maximum: the accumulated rounding cancels and the result is exactly 1.5. -/
theorem delay_f64_at_65280 :
    delay_time_cvpa_f64.fuse_to_json_ra.adaptF64 65280 = .ok (fl64 (3 / 2), "1.500") := by
  have hr15 : rndHalfEven (216172782113783808 / 25) = 8646911284551352 :=
    rndHalfEven_eq_of_lt_half (216172782113783808 / 25) 8646911284551352 (by norm_num) (by norm_num)
  have h14 : fl64 (3 / 100) = 1080863910568919 / 36028797018963968 :=
    fl64_evalPos (3 / 100) (216172782113783808 / 25) (-6) 8646911284551352 (1080863910568919 / 36028797018963968) (by norm_num) (by norm_num) (by norm_num) (by norm_num) hr15 (by norm_num)
  have h16 : fl64 (64512) = 64512 :=
    fl64_exactPos (64512) (15) 8866461766385664 (by norm_num) (by norm_num) (by norm_num) (by norm_num)
  have hr18 : rndHalfEven (52962331617877033 / 8) = 6620291452234629 :=
    rndHalfEven_eq_of_lt_half (52962331617877033 / 8) 6620291452234629 (by norm_num) (by norm_num)
  have h17 : fl64 (52962331617877033 / 36028797018963968) = 6620291452234629 / 4503599627370496 :=
    fl64_evalPos (52962331617877033 / 36028797018963968) (52962331617877033 / 8) (0) 6620291452234629 (6620291452234629 / 4503599627370496) (by norm_num) (by norm_num) (by norm_num) (by norm_num) hr18 (by norm_num)
  have hr20 : rndHalfEven (417078361490781627 / 64) = 6516849398293463 :=
    rndHalfEven_eq_of_half_lt (417078361490781627 / 64) 6516849398293463 (by norm_num) (by norm_num)
  have h19 : fl64 (417078361490781627 / 4398046511104) = 6516849398293463 / 68719476736 :=
    fl64_evalPos (417078361490781627 / 4398046511104) (417078361490781627 / 64) (16) 6516849398293463 (6516849398293463 / 68719476736) (by norm_num) (by norm_num) (by norm_num) (by norm_num) hr20 (by norm_num)
  have hr23 : rndHalfEven (417078361490781632 / 63) = 6620291452234629 :=
    rndHalfEven_eq_of_lt_half (417078361490781632 / 63) 6620291452234629 (by norm_num) (by norm_num)
  have h22 : fl64 (6516849398293463 / 4433230883192832) = 6620291452234629 / 4503599627370496 :=
    fl64_evalPos (6516849398293463 / 4433230883192832) (417078361490781632 / 63) (0) 6620291452234629 (6620291452234629 / 4503599627370496) (by norm_num) (by norm_num) (by norm_num) (by norm_num) hr23 (by norm_num)
  have hr25 : rndHalfEven (54043195528445951 / 8) = 6755399441055744 :=
    rndHalfEven_eq_of_half_lt (54043195528445951 / 8) 6755399441055744 (by norm_num) (by norm_num)
  have h24 : fl64 (54043195528445951 / 36028797018963968) = 3 / 2 :=
    fl64_evalPos (54043195528445951 / 36028797018963968) (54043195528445951 / 8) (0) 6755399441055744 (3 / 2) (by norm_num) (by norm_num) (by norm_num) (by norm_num) hr25 (by norm_num)
  have hr27 : rndHalfEven (1500) = 1500 :=
    rndHalfEven_eq_of_lt_half (1500) 1500 (by norm_num) (by norm_num)
  have h26 : roundq 3 (3 / 2) = 3 / 2 :=
    roundq_eval 3 (3 / 2) (1500) (1500) (3 / 2) (by norm_num) hr27 (by norm_num)
  have h28 : formatFixed 3 (3 / 2) = "1.500" := by
    rw [formatFixed_eval3 (3 / 2) 1500
      (by rw [(by norm_num : (3 / 2 : ℚ) * (10 : ℚ) ^ (3 : ℕ) = 1500)]; exact hr27)]
    decide
  have hL29 : lerpF64 768 65280 (fl64 (3 / 100)) (3 / 2) 65280 = 3 / 2 := by
    unfold lerpF64
    rw [h14]
    rw [(by norm_num : (65280 : ℚ) - 768 = 64512)]
    rw [(by norm_num : (3 / 2 : ℚ) - (1080863910568919 / 36028797018963968) = 52962331617877033 / 36028797018963968)]
    rw [h16, h17]
    rw [(by norm_num : (64512 : ℚ) * (6620291452234629 / 4503599627370496) = 417078361490781627 / 4398046511104)]
    rw [h19]
    rw [(by norm_num : ((6516849398293463 / 68719476736) : ℚ) / (64512) = 6516849398293463 / 4433230883192832)]
    rw [h22]
    rw [(by norm_num : ((1080863910568919 / 36028797018963968) : ℚ) + (6620291452234629 / 4503599627370496) = 54043195528445951 / 36028797018963968)]
    rw [h24]
  rw [RangeAdaptor.adaptF64_in_range _ 65280 768 65280 (fl64 (3 / 100)) (3 / 2) rfl rfl rfl rfl (by norm_num) (by norm_num) (by norm_num)]
  rw [RangeAdaptor.adaptFinishF64_float _ _ 3 "" rfl rfl rfl]
  rw [hL29, h26, h28]
  try rfl

/-- The delay-time adaptor's binary64 pipeline at native 3072: the computed double lies slightly above the exact interpolation value 0.0825, so the 3-decimal formatting gives 0.083 where the exact tie would round to even (0.082). -/
theorem delay_f64_at_3072 :
    delay_time_cvpa_f64.fuse_to_json_ra.adaptF64 3072 = .ok (fl64 (83 / 1000), "0.083") := by
  have hr31 : rndHalfEven (216172782113783808 / 25) = 8646911284551352 :=
    rndHalfEven_eq_of_lt_half (216172782113783808 / 25) 8646911284551352 (by norm_num) (by norm_num)
  have h30 : fl64 (3 / 100) = 1080863910568919 / 36028797018963968 :=
    fl64_evalPos (3 / 100) (216172782113783808 / 25) (-6) 8646911284551352 (1080863910568919 / 36028797018963968) (by norm_num) (by norm_num) (by norm_num) (by norm_num) hr31 (by norm_num)
  have h32 : fl64 (2304) = 2304 :=
    fl64_exactPos (2304) (11) 5066549580791808 (by norm_num) (by norm_num) (by norm_num) (by norm_num)
  have hr34 : rndHalfEven (52962331617877033 / 8) = 6620291452234629 :=
    rndHalfEven_eq_of_lt_half (52962331617877033 / 8) 6620291452234629 (by norm_num) (by norm_num)
  have h33 : fl64 (52962331617877033 / 36028797018963968) = 6620291452234629 / 4503599627370496 :=
    fl64_evalPos (52962331617877033 / 36028797018963968) (52962331617877033 / 8) (0) 6620291452234629 (6620291452234629 / 4503599627370496) (by norm_num) (by norm_num) (by norm_num) (by norm_num) hr34 (by norm_num)
  have hr36 : rndHalfEven (59582623070111661 / 8) = 7447827883763958 :=
    rndHalfEven_eq_of_half_lt (59582623070111661 / 8) 7447827883763958 (by norm_num) (by norm_num)
  have h35 : fl64 (59582623070111661 / 17592186044416) = 3723913941881979 / 1099511627776 :=
    fl64_evalPos (59582623070111661 / 17592186044416) (59582623070111661 / 8) (11) 7447827883763958 (3723913941881979 / 1099511627776) (by norm_num) (by norm_num) (by norm_num) (by norm_num) hr36 (by norm_num)
  have h37 : fl64 (64512) = 64512 :=
    fl64_exactPos (64512) (15) 8866461766385664 (by norm_num) (by norm_num) (by norm_num) (by norm_num)
  have hr39 : rndHalfEven (158886994853631104 / 21) = 7566047373982434 :=
    rndHalfEven_eq_of_half_lt (158886994853631104 / 21) 7566047373982434 (by norm_num) (by norm_num)
  have h38 : fl64 (1241304647293993 / 23643898043695104) = 3783023686991217 / 72057594037927936 :=
    fl64_evalPos (1241304647293993 / 23643898043695104) (158886994853631104 / 21) (-5) 7566047373982434 (3783023686991217 / 72057594037927936) (by norm_num) (by norm_num) (by norm_num) (by norm_num) hr39 (by norm_num)
  have h40 : fl64 (5944751508129055 / 72057594037927936) = 5944751508129055 / 72057594037927936 :=
    fl64_exactPos (5944751508129055 / 72057594037927936) (-4) 5944751508129055 (by norm_num) (by norm_num) (by norm_num) (by norm_num)
  have hr42 : rndHalfEven (743093938516131875 / 9007199254740992) = 83 :=
    rndHalfEven_eq_of_half_lt (743093938516131875 / 9007199254740992) 83 (by norm_num) (by norm_num)
  have h41 : roundq 3 (5944751508129055 / 72057594037927936) = 83 / 1000 :=
    roundq_eval 3 (5944751508129055 / 72057594037927936) (743093938516131875 / 9007199254740992) (83) (83 / 1000) (by norm_num) hr42 (by norm_num)
  have h43 : formatFixed 3 (5944751508129055 / 72057594037927936) = "0.083" := by
    rw [formatFixed_eval3 (5944751508129055 / 72057594037927936) 83
      (by rw [(by norm_num : (5944751508129055 / 72057594037927936 : ℚ) * (10 : ℚ) ^ (3 : ℕ) = 743093938516131875 / 9007199254740992)]; exact hr42)]
    decide
  have hL44 : lerpF64 768 65280 (fl64 (3 / 100)) (3 / 2) 3072 = 5944751508129055 / 72057594037927936 := by
    unfold lerpF64
    rw [h30]
    rw [(by norm_num : (3072 : ℚ) - 768 = 2304)]
    rw [(by norm_num : (3 / 2 : ℚ) - (1080863910568919 / 36028797018963968) = 52962331617877033 / 36028797018963968)]
    rw [(by norm_num : (65280 : ℚ) - 768 = 64512)]
    rw [h32, h33, h37]
    rw [(by norm_num : (2304 : ℚ) * (6620291452234629 / 4503599627370496) = 59582623070111661 / 17592186044416)]
    rw [h35]
    rw [(by norm_num : ((3723913941881979 / 1099511627776) : ℚ) / (64512) = 1241304647293993 / 23643898043695104)]
    rw [h38]
    rw [(by norm_num : ((1080863910568919 / 36028797018963968) : ℚ) + (3783023686991217 / 72057594037927936) = 5944751508129055 / 72057594037927936)]
    rw [h40]
  rw [RangeAdaptor.adaptF64_in_range _ 3072 768 65280 (fl64 (3 / 100)) (3 / 2) rfl rfl rfl rfl (by norm_num) (by norm_num) (by norm_num)]
  rw [RangeAdaptor.adaptFinishF64_float _ _ 3 "" rfl rfl rfl]
  rw [hL44, h41, h43]
  try rfl

/-- The delay-time adaptor's binary64 pipeline at native 10752: the computed double lies slightly below the exact interpolation value 0.2575, so the 3-decimal formatting gives 0.257 where the exact tie would round up to 0.258. -/
theorem delay_f64_at_10752 :
    delay_time_cvpa_f64.fuse_to_json_ra.adaptF64 10752 = .ok (fl64 (257 / 1000), "0.257") := by
  have hr46 : rndHalfEven (216172782113783808 / 25) = 8646911284551352 :=
    rndHalfEven_eq_of_lt_half (216172782113783808 / 25) 8646911284551352 (by norm_num) (by norm_num)
  have h45 : fl64 (3 / 100) = 1080863910568919 / 36028797018963968 :=
    fl64_evalPos (3 / 100) (216172782113783808 / 25) (-6) 8646911284551352 (1080863910568919 / 36028797018963968) (by norm_num) (by norm_num) (by norm_num) (by norm_num) hr46 (by norm_num)
  have h47 : fl64 (9984) = 9984 :=
    fl64_exactPos (9984) (13) 5488762045857792 (by norm_num) (by norm_num) (by norm_num) (by norm_num)
  have hr49 : rndHalfEven (52962331617877033 / 8) = 6620291452234629 :=
    rndHalfEven_eq_of_lt_half (52962331617877033 / 8) 6620291452234629 (by norm_num) (by norm_num)
  have h48 : fl64 (52962331617877033 / 36028797018963968) = 6620291452234629 / 4503599627370496 :=
    fl64_evalPos (52962331617877033 / 36028797018963968) (52962331617877033 / 8) (0) 6620291452234629 (6620291452234629 / 4503599627370496) (by norm_num) (by norm_num) (by norm_num) (by norm_num) hr49 (by norm_num)
  have hr51 : rndHalfEven (258191366637150531 / 32) = 8068480207410954 :=
    rndHalfEven_eq_of_lt_half (258191366637150531 / 32) 8068480207410954 (by norm_num) (by norm_num)
  have h50 : fl64 (258191366637150531 / 17592186044416) = 4034240103705477 / 274877906944 :=
    fl64_evalPos (258191366637150531 / 17592186044416) (258191366637150531 / 32) (13) 8068480207410954 (4034240103705477 / 274877906944) (by norm_num) (by norm_num) (by norm_num) (by norm_num) hr51 (by norm_num)
  have h52 : fl64 (64512) = 64512 :=
    fl64_exactPos (64512) (15) 8866461766385664 (by norm_num) (by norm_num) (by norm_num) (by norm_num)
  have hr54 : rndHalfEven (172127577758100352 / 21) = 8196551321814302 :=
    rndHalfEven_eq_of_lt_half (172127577758100352 / 21) 8196551321814302 (by norm_num) (by norm_num)
  have h53 : fl64 (1344746701235159 / 5910974510923776) = 4098275660907151 / 18014398509481984 :=
    fl64_evalPos (1344746701235159 / 5910974510923776) (172127577758100352 / 21) (-3) 8196551321814302 (4098275660907151 / 18014398509481984) (by norm_num) (by norm_num) (by norm_num) (by norm_num) hr54 (by norm_num)
  have hr56 : rndHalfEven (9277415232383221 / 2) = 4638707616191610 :=
    rndHalfEven_eq_of_tie_even (9277415232383221 / 2) 4638707616191610 (by norm_num) (by decide)
  have h55 : fl64 (9277415232383221 / 36028797018963968) = 2319353808095805 / 9007199254740992 :=
    fl64_evalPos (9277415232383221 / 36028797018963968) (9277415232383221 / 2) (-2) 4638707616191610 (2319353808095805 / 9007199254740992) (by norm_num) (by norm_num) (by norm_num) (by norm_num) hr56 (by norm_num)
  have hr58 : rndHalfEven (289919226011975625 / 1125899906842624) = 257 :=
    rndHalfEven_eq_of_lt_half (289919226011975625 / 1125899906842624) 257 (by norm_num) (by norm_num)
  have h57 : roundq 3 (2319353808095805 / 9007199254740992) = 257 / 1000 :=
    roundq_eval 3 (2319353808095805 / 9007199254740992) (289919226011975625 / 1125899906842624) (257) (257 / 1000) (by norm_num) hr58 (by norm_num)
  have h59 : formatFixed 3 (2319353808095805 / 9007199254740992) = "0.257" := by
    rw [formatFixed_eval3 (2319353808095805 / 9007199254740992) 257
      (by rw [(by norm_num : (2319353808095805 / 9007199254740992 : ℚ) * (10 : ℚ) ^ (3 : ℕ) = 289919226011975625 / 1125899906842624)]; exact hr58)]
    decide
  have hL60 : lerpF64 768 65280 (fl64 (3 / 100)) (3 / 2) 10752 = 2319353808095805 / 9007199254740992 := by
    unfold lerpF64
    rw [h45]
    rw [(by norm_num : (10752 : ℚ) - 768 = 9984)]
    rw [(by norm_num : (3 / 2 : ℚ) - (1080863910568919 / 36028797018963968) = 52962331617877033 / 36028797018963968)]
    rw [(by norm_num : (65280 : ℚ) - 768 = 64512)]
    rw [h47, h48, h52]
    rw [(by norm_num : (9984 : ℚ) * (6620291452234629 / 4503599627370496) = 258191366637150531 / 17592186044416)]
    rw [h50]
    rw [(by norm_num : ((4034240103705477 / 274877906944) : ℚ) / (64512) = 1344746701235159 / 5910974510923776)]
    rw [h53]
    rw [(by norm_num : ((1080863910568919 / 36028797018963968) : ℚ) + (4098275660907151 / 18014398509481984) = 9277415232383221 / 36028797018963968)]
    rw [h55]
  rw [RangeAdaptor.adaptF64_in_range _ 10752 768 65280 (fl64 (3 / 100)) (3 / 2) rfl rfl rfl rfl (by norm_num) (by norm_num) (by norm_num)]
  rw [RangeAdaptor.adaptFinishF64_float _ _ 3 "" rfl rfl rfl]
  rw [hL60, h57, h59]
  try rfl

/-- The default adaptor's binary64 pipeline at the native minimum gives exactly 0. -/
theorem default_f64_at_768 :
    default_cvpa.fuse_to_json_ra.adaptF64 768 = .ok (fl64 0, "0.000") := by
  have h61 : fl64 (0) = 0 := fl64_zero
  have h62 : fl64 (1) = 1 :=
    fl64_exactPos (1) (0) 4503599627370496 (by norm_num) (by norm_num) (by norm_num) (by norm_num)
  have h64 : fl64 (64512) = 64512 :=
    fl64_exactPos (64512) (15) 8866461766385664 (by norm_num) (by norm_num) (by norm_num) (by norm_num)
  have hr68 : rndHalfEven (0) = 0 :=
    rndHalfEven_eq_of_lt_half (0) 0 (by norm_num) (by norm_num)
  have h67 : roundq 3 (0) = 0 :=
    roundq_eval 3 (0) (0) (0) (0) (by norm_num) hr68 (by norm_num)
  have h69 : formatFixed 3 (0) = "0.000" := by
    rw [formatFixed_eval3 (0) 0
      (by rw [(by norm_num : (0 : ℚ) * (10 : ℚ) ^ (3 : ℕ) = 0)]; exact hr68)]
    decide
  have hL70 : lerpF64 768 65280 (0) (1) 768 = 0 := by
    unfold lerpF64
    rw [(by norm_num : (768 : ℚ) - 768 = 0)]
    rw [(by norm_num : (1 : ℚ) - 0 = 1)]
    rw [(by norm_num : (65280 : ℚ) - 768 = 64512)]
    rw [h61, h62, h64]
    rw [(by norm_num : (0 : ℚ) * (1) = 0)]
    rw [h61]
    rw [(by norm_num : (0 : ℚ) / (64512) = 0)]
    rw [h61]
    rw [(by norm_num : (0 : ℚ) + (0) = 0)]
    rw [h61]
  rw [RangeAdaptor.adaptF64_in_range _ 768 768 65280 (0) (1) rfl rfl rfl rfl (by norm_num) (by norm_num) (by norm_num)]
  rw [RangeAdaptor.adaptFinishF64_float _ _ 3 "" rfl rfl rfl]
  rw [hL70, h67, h69]
  try rfl

/-- The default adaptor's binary64 pipeline at native midpoint 0x8100 gives exactly 0.5 (every step is binary-exact). -/
theorem default_f64_at_33024 :
    default_cvpa.fuse_to_json_ra.adaptF64 33024 = .ok (fl64 (1 / 2), "0.500") := by
  have h71 : fl64 (32256) = 32256 :=
    fl64_exactPos (32256) (14) 8866461766385664 (by norm_num) (by norm_num) (by norm_num) (by norm_num)
  have h72 : fl64 (1) = 1 :=
    fl64_exactPos (1) (0) 4503599627370496 (by norm_num) (by norm_num) (by norm_num) (by norm_num)
  have h74 : fl64 (64512) = 64512 :=
    fl64_exactPos (64512) (15) 8866461766385664 (by norm_num) (by norm_num) (by norm_num) (by norm_num)
  have h75 : fl64 (1 / 2) = 1 / 2 :=
    fl64_exactPos (1 / 2) (-1) 4503599627370496 (by norm_num) (by norm_num) (by norm_num) (by norm_num)
  have hr78 : rndHalfEven (500) = 500 :=
    rndHalfEven_eq_of_lt_half (500) 500 (by norm_num) (by norm_num)
  have h77 : roundq 3 (1 / 2) = 1 / 2 :=
    roundq_eval 3 (1 / 2) (500) (500) (1 / 2) (by norm_num) hr78 (by norm_num)
  have h79 : formatFixed 3 (1 / 2) = "0.500" := by
    rw [formatFixed_eval3 (1 / 2) 500
      (by rw [(by norm_num : (1 / 2 : ℚ) * (10 : ℚ) ^ (3 : ℕ) = 500)]; exact hr78)]
    decide
  have hL80 : lerpF64 768 65280 (0) (1) 33024 = 1 / 2 := by
    unfold lerpF64
    rw [(by norm_num : (33024 : ℚ) - 768 = 32256)]
    rw [(by norm_num : (1 : ℚ) - 0 = 1)]
    rw [(by norm_num : (65280 : ℚ) - 768 = 64512)]
    rw [h71, h72, h74]
    rw [(by norm_num : (32256 : ℚ) * (1) = 32256)]
    rw [h71]
    rw [(by norm_num : (32256 : ℚ) / (64512) = 1 / 2)]
    rw [h75]
    rw [(by norm_num : (0 : ℚ) + (1 / 2) = 1 / 2)]
    rw [h75]
  rw [RangeAdaptor.adaptF64_in_range _ 33024 768 65280 (0) (1) rfl rfl rfl rfl (by norm_num) (by norm_num) (by norm_num)]
  rw [RangeAdaptor.adaptFinishF64_float _ _ 3 "" rfl rfl rfl]
  rw [hL80, h77, h79]
  try rfl

/-- The default adaptor's binary64 pipeline at the native maximum gives exactly 1. -/
theorem default_f64_at_65280 :
    default_cvpa.fuse_to_json_ra.adaptF64 65280 = .ok (fl64 1, "1.000") := by
  have h81 : fl64 (64512) = 64512 :=
    fl64_exactPos (64512) (15) 8866461766385664 (by norm_num) (by norm_num) (by norm_num) (by norm_num)
  have h82 : fl64 (1) = 1 :=
    fl64_exactPos (1) (0) 4503599627370496 (by norm_num) (by norm_num) (by norm_num) (by norm_num)
  have hr88 : rndHalfEven (1000) = 1000 :=
    rndHalfEven_eq_of_lt_half (1000) 1000 (by norm_num) (by norm_num)
  have h87 : roundq 3 (1) = 1 :=
    roundq_eval 3 (1) (1000) (1000) (1) (by norm_num) hr88 (by norm_num)
  have h89 : formatFixed 3 (1) = "1.000" := by
    rw [formatFixed_eval3 (1) 1000
      (by rw [(by norm_num : (1 : ℚ) * (10 : ℚ) ^ (3 : ℕ) = 1000)]; exact hr88)]
    decide
  have hL90 : lerpF64 768 65280 (0) (1) 65280 = 1 := by
    unfold lerpF64
    rw [(by norm_num : (65280 : ℚ) - 768 = 64512)]
    rw [(by norm_num : (1 : ℚ) - 0 = 1)]
    rw [h81, h82]
    rw [(by norm_num : (64512 : ℚ) * (1) = 64512)]
    rw [h81]
    rw [(by norm_num : (64512 : ℚ) / (64512) = 1)]
    rw [h82]
    rw [(by norm_num : (0 : ℚ) + (1) = 1)]
    rw [h82]
  rw [RangeAdaptor.adaptF64_in_range _ 65280 768 65280 (0) (1) rfl rfl rfl rfl (by norm_num) (by norm_num) (by norm_num)]
  rw [RangeAdaptor.adaptFinishF64_float _ _ 3 "" rfl rfl rfl]
  rw [hL90, h87, h89]
  try rfl

/-- The volume adaptor's binary64 pipeline at the native maximum gives exactly 0 (every step is binary-exact). -/
theorem volume_f64_at_65280 :
    volume_cvpa.fuse_to_json_ra.adaptF64 65280 = .ok (fl64 0, "0.000") := by
  have h91 : fl64 (64512) = 64512 :=
    fl64_exactPos (64512) (15) 8866461766385664 (by norm_num) (by norm_num) (by norm_num) (by norm_num)
  have h92 : fl64 (60) = 60 :=
    fl64_exactPos (60) (5) 8444249301319680 (by norm_num) (by norm_num) (by norm_num) (by norm_num)
  have h93 : fl64 (3870720) = 3870720 :=
    fl64_exactPos (3870720) (21) 8312307905986560 (by norm_num) (by norm_num) (by norm_num) (by norm_num)
  have h96 : fl64 (0) = 0 := fl64_zero
  have hr98 : rndHalfEven (0) = 0 :=
    rndHalfEven_eq_of_lt_half (0) 0 (by norm_num) (by norm_num)
  have h97 : roundq 3 (0) = 0 :=
    roundq_eval 3 (0) (0) (0) (0) (by norm_num) hr98 (by norm_num)
  have h99 : formatFixed 3 (0) = "0.000" := by
    rw [formatFixed_eval3 (0) 0
      (by rw [(by norm_num : (0 : ℚ) * (10 : ℚ) ^ (3 : ℕ) = 0)]; exact hr98)]
    decide
  have hL100 : lerpF64 768 65280 (-60) (0) 65280 = 0 := by
    unfold lerpF64
    rw [(by norm_num : (65280 : ℚ) - 768 = 64512)]
    rw [(by norm_num : (0 : ℚ) - (-60) = 60)]
    rw [h91, h92]
    rw [(by norm_num : (64512 : ℚ) * (60) = 3870720)]
    rw [h93]
    rw [(by norm_num : (3870720 : ℚ) / (64512) = 60)]
    rw [h92]
    rw [(by norm_num : ((-60) : ℚ) + (60) = 0)]
    rw [h96]
  rw [RangeAdaptor.adaptF64_in_range _ 65280 768 65280 (-60) (0) rfl rfl rfl rfl (by norm_num) (by norm_num) (by norm_num)]
  rw [RangeAdaptor.adaptFinishF64_float _ _ 3 "" rfl rfl rfl]
  rw [hL100, h97, h99]
  try rfl

/-- The volume adaptor's binary64 pipeline at the native minimum gives exactly -60 (every step is binary-exact). -/
theorem volume_f64_at_768 :
    volume_cvpa.fuse_to_json_ra.adaptF64 768 = .ok (fl64 (-60 : ℚ), "-60.000") := by
  have h60 : fl64 (60) = 60 :=
    fl64_exactPos (60) (5) 8444249301319680 (by norm_num) (by norm_num) (by norm_num) (by norm_num)
  have h64512 : fl64 (64512) = 64512 :=
    fl64_exactPos (64512) (15) 8866461766385664 (by norm_num) (by norm_num) (by norm_num) (by norm_num)
  have hL : lerpF64 768 65280 (-60) (0) 768 = -60 := by
    unfold lerpF64
    rw [(by norm_num : (768 : ℚ) - 768 = 0)]
    rw [(by norm_num : (0 : ℚ) - (-60) = 60)]
    rw [(by norm_num : (65280 : ℚ) - 768 = 64512)]
    rw [fl64_zero, h60, h64512]
    rw [(by norm_num : (0 : ℚ) * (60) = 0)]
    rw [fl64_zero]
    rw [(by norm_num : (0 : ℚ) / (64512) = 0)]
    rw [fl64_zero]
    rw [(by norm_num : (-60 : ℚ) + (0) = -60)]
    rw [fl64_neg60]
  have hrd : rndHalfEven (-60000) = -60000 :=
    rndHalfEven_eq_of_lt_half (-60000) (-60000) (by norm_num) (by norm_num)
  have hround : roundq 3 (-60 : ℚ) = -60 :=
    roundq_eval 3 (-60) (-60000) (-60000) (-60) (by norm_num) hrd (by norm_num)
  have hfmt : formatFixed 3 (-60 : ℚ) = "-60.000" := by
    unfold formatFixed
    simp only [(by rw [(by norm_num : (-60 : ℚ) * (10 : ℚ) ^ (3 : ℕ) = -60000)]; exact hrd :
      rndHalfEven ((-60 : ℚ) * (10 : ℚ) ^ (3 : ℕ)) = -60000)]
    decide
  rw [RangeAdaptor.adaptF64_in_range _ 768 768 65280 (-60) (0) rfl rfl rfl rfl (by norm_num) (by norm_num) (by norm_num)]
  rw [RangeAdaptor.adaptFinishF64_float _ _ 3 "" rfl rfl rfl]
  rw [hL, hround, hfmt]
  try rfl

/-- The binary64 value of the Python literal 0.083 (the double the delay-time pipeline returns for native 3072). -/
theorem fl64_83_1000 :
    fl64 (83 / 1000) = 5980780305148019 / 72057594037927936 := by
  have hr : rndHalfEven (747597538143502336 / 125) = 5980780305148019 :=
    rndHalfEven_eq_of_half_lt (747597538143502336 / 125) 5980780305148019 (by norm_num) (by norm_num)
  exact fl64_evalPos (83 / 1000) (747597538143502336 / 125) (-4) 5980780305148019
    (5980780305148019 / 72057594037927936) (by norm_num) (by norm_num) (by norm_num)
    (by norm_num) hr (by norm_num)

/-- The binary64 value of the Python literal 0.257 (the double the delay-time pipeline returns for native 10752). -/
theorem fl64_257_1000 :
    fl64 (257 / 1000) = 2314850208468435 / 9007199254740992 := by
  have hr : rndHalfEven (578712552117108736 / 125) = 4629700416936870 :=
    rndHalfEven_eq_of_half_lt (578712552117108736 / 125) 4629700416936870 (by norm_num) (by norm_num)
  exact fl64_evalPos (257 / 1000) (578712552117108736 / 125) (-2) 4629700416936870
    (2314850208468435 / 9007199254740992) (by norm_num) (by norm_num) (by norm_num)
    (by norm_num) hr (by norm_num)

/-- **C4 (counterexample)** — For the delay-time adaptor, the exact linear
interpolation at native 3072 is 33/400 = 0.0825, a 3-decimal tie that rounds
to even as 0.082, so the claim predicts 0.082 (41/500); the program computes
the interpolation in binary64, obtains a double slightly above the tie, and
returns 0.083 (the string "0.083" and the double nearest 83/1000).  At native
10752 the exact value is the tie 103/400 = 0.2575, rounding to 0.258, while
the program returns 0.257.  So `to_interchange` on in-range values is not the
exact interpolation rounded to 3 decimals. -/
theorem c4_counterexample :
    ((3 : ℚ) / 100 + ((3072 : ℚ) - 768) * ((3 : ℚ) / 2 - 3 / 100) / (65280 - 768) = 33 / 400) ∧
    roundq 3 ((33 : ℚ) / 400) = 41 / 500 ∧
    formatFixed 3 ((33 : ℚ) / 400) = "0.082" ∧
    delay_time_cvpa_f64.fuse_to_json_ra.adaptF64 3072 = .ok (fl64 (83 / 1000), "0.083") ∧
    fl64 ((83 : ℚ) / 1000) ≠ 41 / 500 ∧
    ((3 : ℚ) / 100 + ((10752 : ℚ) - 768) * ((3 : ℚ) / 2 - 3 / 100) / (65280 - 768) = 103 / 400) ∧
    roundq 3 ((103 : ℚ) / 400) = 129 / 500 ∧
    delay_time_cvpa_f64.fuse_to_json_ra.adaptF64 10752 = .ok (fl64 (257 / 1000), "0.257") ∧
    fl64 ((257 : ℚ) / 1000) ≠ 129 / 500 := by
  have hr1 : rndHalfEven (165 / 2) = 82 :=
    rndHalfEven_eq_of_tie_even (165 / 2) 82 (by norm_num) (by decide)
  have hr2 : rndHalfEven (515 / 2) = 258 :=
    rndHalfEven_eq_of_tie_odd (515 / 2) 258 (by norm_num) (by decide)
  refine ⟨by norm_num, ?_, ?_, delay_f64_at_3072, ?_, by norm_num, ?_, delay_f64_at_10752, ?_⟩
  · exact roundq_eval 3 (33 / 400) (165 / 2) 82 (41 / 500) (by norm_num) hr1 (by norm_num)
  · rw [formatFixed_eval3 (33 / 400) 82
      (by rw [(by norm_num : (33 / 400 : ℚ) * (10 : ℚ) ^ (3 : ℕ) = 165 / 2)]; exact hr1)]
    decide
  · rw [fl64_83_1000]
    norm_num
  · exact roundq_eval 3 (103 / 400) (515 / 2) 258 (129 / 500) (by norm_num) hr2 (by norm_num)
  · rw [fl64_257_1000]
    norm_num

/-- **C4 (amended)** — For every continuous adaptor (float `min_out`, format
`".3f"`, no suffix) and every in-range native value, `to_interchange` computes
the linear interpolation in binary64 arithmetic (`lerpF64`), rounds the
resulting double to 3 decimal places (ties to even on the double's exact
value), and returns that decimal read back as a double; the bound identities
hold exactly for all three adaptors the sources construct — the default
adaptor maps 0x0300/0x8100/0xFF00 to 0.0/0.5/1.0, the volume adaptor maps its
bounds to -60.0/0.0, and the delay-time adaptor maps its bounds to the stored
double nearest 0.03 and to exactly 1.5 — but in-range values need not equal
the exact-rational interpolation rounded to 3 decimals: at native 3072 the
delay-time adaptor returns the double nearest 0.083, not the 0.082 obtained
by rounding the exact tie 0.0825. -/
theorem c4_continuous_to_interchange_is_rounded_float_lerp
    (ra : RangeAdaptor) (v a b c d : ℚ)
    (ha : ra.min_in = a) (hb : ra.max_in = b) (hc : ra.min_out = c) (hd : ra.max_out = d)
    (hf : ra.int_out = false) (hp : ra.prec = 3) (hs : ra.suffix = "")
    (h1 : a ≤ v) (h2 : v ≤ b) (h3 : a < b) :
    ra.adaptF64 v = .ok (fl64 (roundq 3 (lerpF64 a b c d v)),
      formatFixed 3 (lerpF64 a b c d v) ++ "") ∧
    default_cvpa.fuse_to_json_f64 0x0300 = .ok 0 ∧
    default_cvpa.fuse_to_json_f64 0x8100 = .ok (1 / 2) ∧
    default_cvpa.fuse_to_json_f64 0xFF00 = .ok 1 ∧
    volume_cvpa.fuse_to_json_f64 0x0300 = .ok (-60) ∧
    volume_cvpa.fuse_to_json_f64 0xFF00 = .ok 0 ∧
    delay_time_cvpa_f64.fuse_to_json_f64 0x0300 = .ok (fl64 (3 / 100)) ∧
    delay_time_cvpa_f64.fuse_to_json_f64 0xFF00 = .ok (3 / 2) ∧
    delay_time_cvpa_f64.fuse_to_json_f64 3072 = .ok (fl64 (83 / 1000)) ∧
    delay_time_cvpa_f64.fuse_to_json_f64 10752 = .ok (fl64 (257 / 1000)) := by
  have hhalf : fl64 ((1 : ℚ) / 2) = 1 / 2 :=
    fl64_exactPos (1 / 2) (-1) 4503599627370496 (by norm_num) (by norm_num) (by norm_num)
      (by norm_num)
  have hone : fl64 (1 : ℚ) = 1 :=
    fl64_exactPos 1 0 4503599627370496 (by norm_num) (by norm_num) (by norm_num) (by norm_num)
  have h32 : fl64 ((3 : ℚ) / 2) = 3 / 2 :=
    fl64_exactPos (3 / 2) 0 6755399441055744 (by norm_num) (by norm_num) (by norm_num)
      (by norm_num)
  refine ⟨?_, ?_, ?_, ?_, ?_, ?_, ?_, ?_, ?_, ?_⟩
  · rw [RangeAdaptor.adaptF64_in_range ra v a b c d ha hb hc hd h1 h2 h3,
      RangeAdaptor.adaptFinishF64_float ra _ 3 "" hf hp hs]
  · unfold ContinuousValuedParameterAdaptor.fuse_to_json_f64
    rw [default_f64_at_768, fl64_zero]
    rfl
  · unfold ContinuousValuedParameterAdaptor.fuse_to_json_f64
    rw [default_f64_at_33024, hhalf]
    rfl
  · unfold ContinuousValuedParameterAdaptor.fuse_to_json_f64
    rw [default_f64_at_65280, hone]
    rfl
  · unfold ContinuousValuedParameterAdaptor.fuse_to_json_f64
    rw [volume_f64_at_768, fl64_neg60]
    rfl
  · unfold ContinuousValuedParameterAdaptor.fuse_to_json_f64
    rw [volume_f64_at_65280, fl64_zero]
    rfl
  · unfold ContinuousValuedParameterAdaptor.fuse_to_json_f64
    rw [delay_f64_at_768]
    rfl
  · unfold ContinuousValuedParameterAdaptor.fuse_to_json_f64
    rw [delay_f64_at_65280, h32]
    rfl
  · unfold ContinuousValuedParameterAdaptor.fuse_to_json_f64
    rw [delay_f64_at_3072]
    rfl
  · unfold ContinuousValuedParameterAdaptor.fuse_to_json_f64
    rw [delay_f64_at_10752]
    rfl

/-- Witness for C4 at the default adaptor and native value 0x8100. -/
theorem c4_witness :
    (default_cvpa.fuse_to_json_ra.min_in = (768 : ℚ) ∧
     default_cvpa.fuse_to_json_ra.max_in = (65280 : ℚ) ∧
     default_cvpa.fuse_to_json_ra.min_out = (0 : ℚ) ∧
     default_cvpa.fuse_to_json_ra.max_out = (1 : ℚ) ∧
     default_cvpa.fuse_to_json_ra.int_out = false ∧
     default_cvpa.fuse_to_json_ra.prec = 3 ∧
     default_cvpa.fuse_to_json_ra.suffix = "" ∧
     (768 : ℚ) ≤ 33024 ∧ (33024 : ℚ) ≤ 65280 ∧ (768 : ℚ) < 65280) ∧
    default_cvpa.fuse_to_json_ra.adaptF64 33024
      = .ok (fl64 (roundq 3 (lerpF64 768 65280 0 1 33024)),
          formatFixed 3 (lerpF64 768 65280 0 1 33024) ++ "") ∧
    default_cvpa.fuse_to_json_f64 0x8100 = .ok (1 / 2) := by
  have h := c4_continuous_to_interchange_is_rounded_float_lerp
    default_cvpa.fuse_to_json_ra 33024 768 65280 0 1
    rfl rfl rfl rfl rfl rfl rfl (by norm_num) (by norm_num) (by norm_num)
  exact ⟨⟨rfl, rfl, rfl, rfl, rfl, rfl, rfl, by norm_num, by norm_num, by norm_num⟩,
    h.1, h.2.2.1⟩

/-- **C5** — For a continuous adaptor with the default native range
[0x0300, 0xFF00], `to_interchange` maps the sentinel native values 0 and 256
to `interchange_min` and 65535 to `interchange_max`, and every other native
value outside [0x0300, 0xFF00] raises a domain error (the failing assertion)
rather than being silently clamped. -/
theorem c5_sentinel_tolerance_and_domain_error
    (jmin jmax : ℚ) (uis : List RangeAdaptor)
    (hjm : roundq 3 jmin = jmin) (hjx : roundq 3 jmax = jmax) :
    (ContinuousValuedParameterAdaptor.make 0x0300 0xFF00 jmin jmax uis).fuse_to_json 0
      = .ok jmin ∧
    (ContinuousValuedParameterAdaptor.make 0x0300 0xFF00 jmin jmax uis).fuse_to_json 256
      = .ok jmin ∧
    (ContinuousValuedParameterAdaptor.make 0x0300 0xFF00 jmin jmax uis).fuse_to_json 65535
      = .ok jmax ∧
    (∀ v : ℤ, ((v : ℚ) < 0x0300 ∨ (v : ℚ) > 0xFF00) → v ≠ 0 → v ≠ 256 → v ≠ 65535 →
      (ContinuousValuedParameterAdaptor.make 0x0300 0xFF00 jmin jmax uis).fuse_to_json (v : ℚ)
        = .error (.assertionError "")) := by
  have hlow : ∀ w : ℚ, w < 0x0300 → (w = 0 ∨ w = 256) →
      (ContinuousValuedParameterAdaptor.make 0x0300 0xFF00 jmin jmax uis).fuse_to_json w
        = .ok jmin := by
    intro w hw hs
    have hadapt :
        (ContinuousValuedParameterAdaptor.make 0x0300 0xFF00 jmin jmax uis).fuse_to_json_ra.adapt w
          = RangeAdaptor.adaptFinish
              (ContinuousValuedParameterAdaptor.make 0x0300 0xFF00 jmin jmax uis).fuse_to_json_ra
              jmin := by
      unfold ContinuousValuedParameterAdaptor.make RangeAdaptor.adapt
      simp [hw, hs]
    unfold ContinuousValuedParameterAdaptor.fuse_to_json
    rw [hadapt, RangeAdaptor.adaptFinish_float _ _ rfl]
    simp [Except.map, ContinuousValuedParameterAdaptor.make, hjm]
  have hhigh : ∀ w : ℚ, ¬ (w < 0x0300) → (0xFF00 : ℚ) < w → ((w = 65535) = True) →
      (ContinuousValuedParameterAdaptor.make 0x0300 0xFF00 jmin jmax uis).fuse_to_json w
        = .ok jmax := by
    intro w hw1 hw2 hw3
    have hadapt :
        (ContinuousValuedParameterAdaptor.make 0x0300 0xFF00 jmin jmax uis).fuse_to_json_ra.adapt w
          = RangeAdaptor.adaptFinish
              (ContinuousValuedParameterAdaptor.make 0x0300 0xFF00 jmin jmax uis).fuse_to_json_ra
              jmax := by
      unfold ContinuousValuedParameterAdaptor.make RangeAdaptor.adapt
      simp [hw1, hw2, hw3]
    unfold ContinuousValuedParameterAdaptor.fuse_to_json
    rw [hadapt, RangeAdaptor.adaptFinish_float _ _ rfl]
    simp [Except.map, ContinuousValuedParameterAdaptor.make, hjx]
  refine ⟨hlow 0 (by norm_num) (Or.inl rfl), hlow 256 (by norm_num) (Or.inr rfl),
    hhigh 65535 (by norm_num) (by norm_num) (eq_true rfl), ?_⟩
  intro v hv h0 h256 h65535
  have hc0 : ¬ ((v : ℚ) = 0) := by exact_mod_cast h0
  have hc256 : ¬ ((v : ℚ) = 256) := by exact_mod_cast h256
  have hc3 : ¬ ((v : ℚ) = 65535) := by exact_mod_cast h65535
  rcases hv with hlo | hhi
  · unfold ContinuousValuedParameterAdaptor.fuse_to_json ContinuousValuedParameterAdaptor.make
      RangeAdaptor.adapt
    simp [Except.map, hlo, hc0, hc256, h0, h256]
  · have hnlt : ¬ ((v : ℚ) < 0x0300) := not_lt.mpr (by linarith)
    unfold ContinuousValuedParameterAdaptor.fuse_to_json ContinuousValuedParameterAdaptor.make
      RangeAdaptor.adapt
    simp [Except.map, hnlt, hhi, hc3, h65535]

/-- Witness for C5 at the default interchange range and the concrete inputs
0, 256, 65535 and 500. -/
theorem c5_witness :
    (ContinuousValuedParameterAdaptor.make 0x0300 0xFF00 0 1 default_ui_range_adaptors).fuse_to_json
        0 = .ok 0 ∧
    (ContinuousValuedParameterAdaptor.make 0x0300 0xFF00 0 1 default_ui_range_adaptors).fuse_to_json
        256 = .ok 0 ∧
    (ContinuousValuedParameterAdaptor.make 0x0300 0xFF00 0 1 default_ui_range_adaptors).fuse_to_json
        65535 = .ok 1 ∧
    (ContinuousValuedParameterAdaptor.make 0x0300 0xFF00 0 1 default_ui_range_adaptors).fuse_to_json
        ((500 : ℤ) : ℚ) = .error (.assertionError "") := by
  have h := c5_sentinel_tolerance_and_domain_error 0 1 default_ui_range_adaptors
    roundq_zero3 roundq_one3
  exact ⟨h.1, h.2.1, h.2.2.1,
    h.2.2.2 500 (Or.inl (by norm_num)) (by decide) (by decide) (by decide)⟩

/-- **C10 (counterexample)** — The ids "GGTT" and "GT" differ only by one
occurrence of the substring "GT" (`"GGTT" = "G" ++ "GT" ++ "T"` against
`"G" ++ "T"`), yet the id filter maps them to different results, because
removing the inner occurrence creates a new "GT" that the single
replacement pass no longer sees. -/
theorem c10_counterexample :
    ("GGTT" = "G" ++ "GT" ++ "T") ∧ ("G" ++ "T" = "GT") ∧
    filter_fender_id "GGTT" = "GT" ∧ filter_fender_id "GT" = "" ∧
    filter_fender_id "GGTT" ≠ filter_fender_id "GT" :=
  ⟨rfl, rfl, rfl, rfl, by decide⟩

/-- **C10 (amended)** — `filter_fender_id` removes every (non-overlapping,
left-to-right) occurrence of the substrings "DUBS_Mustang", "DUBS_",
"Reverb", "ACD_", "GT", one single replacement pass per substring, applied
successively in that fixed order and at any position in the string; but a
removal can create a new occurrence that no later pass removes, so two ids
differing only by occurrences of these substrings need not be mapped to the
same filtered identity. -/
theorem c10_filter_fender_id_successive_removals (s : String) :
    filter_fender_id s =
      pyReplaceRemove (pyReplaceRemove (pyReplaceRemove (pyReplaceRemove
        (pyReplaceRemove s "DUBS_Mustang") "DUBS_") "Reverb") "ACD_") "GT" ∧
    filter_fender_id "xGTy" = "xy" ∧
    filter_fender_id "xACD_y" = "xy" ∧
    filter_fender_id "DUBS_MustangTwin65" = "Twin65" ∧
    filter_fender_id "DUBS_ReverbSpring65" = "Spring65" :=
  ⟨rfl, rfl, rfl, rfl, rfl⟩

/-- **C1 (counterexample)** — On a well-formed document whose every module is
known, the conversion succeeds with an empty problem list but produces SIX
converted modules, not five: the amplifier element is converted twice, and
the first conversion performed is the amplifier, not the stomp. -/
theorem c1_counterexample :
    (fuse_to_json fuse_doc_ok).1 = [] ∧
    (fuse_to_json fuse_doc_ok).2.1.length = 6 ∧
    ¬ ((fuse_to_json fuse_doc_ok).2.1.length = 5) ∧
    (fuse_to_json fuse_doc_ok).2.1.map JsonModule.fenderId =
      ["Deluxe65", "Overdrive", "Vibratone", "Deluxe65", "MonoDelay", "Spring65"] :=
  ⟨rfl, rfl, by decide, rfl⟩

/-- **C1 (amended)** — The assembler invokes the module converter six times,
on the slot elements in the order amplifier, stomp, modulation, amplifier
(again), delay, reverb; a fully successful conversion therefore yields six
converted modules, with the amplifier's appearing twice; dropping the first
of the six gives the five modules in the order stomp, modulation, amplifier,
delay, reverb (the selection `json_modules[1..5]` made by the `__main__`
driver). -/
theorem c1_assembler_converts_six_elements
    (root amp stomp md dly rev : XmlElement)
    (hext : extractSlots root = .ok (amp, stomp, md, dly, rev))
    (ja js jm jd jr : JsonModule) (ua us um ud ur : UiModule)
    (ha : convert_fuse_module amp.tag amp = .ok (ja, ua))
    (hs : convert_fuse_module stomp.tag stomp = .ok (js, us))
    (hm : convert_fuse_module md.tag md = .ok (jm, um))
    (hd : convert_fuse_module dly.tag dly = .ok (jd, ud))
    (hr : convert_fuse_module rev.tag rev = .ok (jr, ur)) :
    fuse_to_json root = ([], [ja, js, jm, ja, jd, jr], [ua, us, um, ua, ud, ur]) ∧
    List.drop 1 [ja, js, jm, ja, jd, jr] = [js, jm, ja, jd, jr] := by
  constructor
  · unfold fuse_to_json
    rw [hext]
    simp [assembleStep, ha, hs, hm, hd, hr]
  · rfl

/-- Witness for C1 on the concrete well-formed document. -/
theorem c1_witness :
    fuse_to_json fuse_doc_ok =
      ([],
       [{ fenderId := "Deluxe65", dspUnitParameters := [] },
        { fenderId := "Overdrive", dspUnitParameters := [] },
        { fenderId := "Vibratone", dspUnitParameters := [] },
        { fenderId := "Deluxe65", dspUnitParameters := [] },
        { fenderId := "MonoDelay", dspUnitParameters := [] },
        { fenderId := "Spring65", dspUnitParameters := [] }],
       [{ module_type := some "Amplifier", module_name := "DELUXE CLN", params := [] },
        { module_type := some "Stompbox", module_name := "OVERDRIVE", params := [] },
        { module_type := some "Modulation", module_name := "VIBRATONE", params := [] },
        { module_type := some "Amplifier", module_name := "DELUXE CLN", params := [] },
        { module_type := some "Delay", module_name := "DELAY", params := [] },
        { module_type := some "Reverb", module_name := "SPRING 65", params := [] }]) :=
  (c1_assembler_converts_six_elements fuse_doc_ok
    fuse_amp_83 fuse_stomp_60 fuse_mod_45 fuse_delay_22 fuse_reverb_11 rfl
    _ _ _ _ _ _ _ _ _ _ rfl rfl rfl rfl rfl).1

/-- The assembler loop decomposes per component: problems evolve by
`problemStep`, and each module list collects the successful conversions of
every element of the iteration list, independently of the other elements'
failures. -/
theorem foldl_assembleStep_eq (elts : List XmlElement) (ps : List String)
    (js : List JsonModule) (us : List UiModule) :
    elts.foldl assembleStep (ps, js, us) =
      (elts.foldl problemStep ps, js ++ elts.filterMap okJson, us ++ elts.filterMap okUi) := by
  induction elts generalizing ps js us with
  | nil => simp
  | cons e rest ih =>
      simp only [List.foldl_cons, List.filterMap_cons]
      cases hc : convert_fuse_module e.tag e with
      | ok ju =>
          simp [assembleStep, problemStep, okJson, okUi, Except.toOption, hc, ih]
      | error err =>
          cases err <;>
            simp [assembleStep, problemStep, okJson, okUi, Except.toOption, hc, ih]

/-- **C2 (amended)** — When extraction of one of the five slot elements fails
(missing element or wrong tag), the whole preset conversion aborts before any
slot conversion is attempted: the caller receives the exception text as the
single diagnostic (empty text for a failed tag assertion) and no converted
modules.  When extraction succeeds, every one of the six loop elements is
attempted regardless of other elements' failures: the module lists collect
exactly the successful conversions in loop order, and the problem list folds
each failure in (assertion messages appended, other exception texts appended
with deduplication). -/
theorem c2_abort_on_slot_extraction_but_skip_on_conversion_failure (root : XmlElement) :
    (∀ e, extractSlots root = .error e → fuse_to_json root = ([pyStr e], [], [])) ∧
    (∀ amp stomp md dly rev,
      extractSlots root = .ok (amp, stomp, md, dly, rev) →
      fuse_to_json root =
        ([amp, stomp, md, amp, dly, rev].foldl problemStep [],
         [amp, stomp, md, amp, dly, rev].filterMap okJson,
         [amp, stomp, md, amp, dly, rev].filterMap okUi)) := by
  constructor
  · intro e he
    unfold fuse_to_json
    rw [he]
    simp [dedupAppend]
  · intro amp stomp md dly rev hok
    unfold fuse_to_json
    rw [hok]
    simpa using foldl_assembleStep_eq [amp, stomp, md, amp, dly, rev] [] [] []

/-- **C2 (counterexample)** — A document whose stomp slot carries the wrong
tag is rejected whole: the caller receives one (empty) diagnostic and NO
converted modules, although the amplifier and modulation modules of the same
document are individually convertible; no remaining slot is attempted. -/
theorem c2_counterexample :
    fuse_to_json fuse_doc_wrong_tag = ([""], [], []) ∧
    convert_fuse_module "Amplifier" fuse_amp_83 =
      .ok ({ fenderId := "Deluxe65", dspUnitParameters := [] },
           { module_type := some "Amplifier", module_name := "DELUXE CLN", params := [] }) ∧
    convert_fuse_module "Modulation" fuse_mod_45 =
      .ok ({ fenderId := "Vibratone", dspUnitParameters := [] },
           { module_type := some "Modulation", module_name := "VIBRATONE", params := [] }) :=
  ⟨rfl, rfl, rfl⟩

/-- Witness for C2: the abort case on the wrong-tag document, and the
skip-and-continue case on a document whose stomp module is unknown. -/
theorem c2_witness :
    fuse_to_json fuse_doc_wrong_tag = ([""], [], []) ∧
    fuse_to_json fuse_doc_bad_stomp =
      (["Converter not found for Stompbox 999"],
       [{ fenderId := "Deluxe65", dspUnitParameters := [] },
        { fenderId := "Vibratone", dspUnitParameters := [] },
        { fenderId := "Deluxe65", dspUnitParameters := [] },
        { fenderId := "MonoDelay", dspUnitParameters := [] },
        { fenderId := "Spring65", dspUnitParameters := [] }],
       [{ module_type := some "Amplifier", module_name := "DELUXE CLN", params := [] },
        { module_type := some "Modulation", module_name := "VIBRATONE", params := [] },
        { module_type := some "Amplifier", module_name := "DELUXE CLN", params := [] },
        { module_type := some "Delay", module_name := "DELAY", params := [] },
        { module_type := some "Reverb", module_name := "SPRING 65", params := [] }]) := by
  constructor
  · exact (c2_abort_on_slot_extraction_but_skip_on_conversion_failure
      fuse_doc_wrong_tag).1 (.assertionError "") rfl
  · have h := (c2_abort_on_slot_extraction_but_skip_on_conversion_failure
      fuse_doc_bad_stomp).2 fuse_amp_83 fuse_stomp_999 fuse_mod_45 fuse_delay_22
      fuse_reverb_11 rfl
    exact h.trans rfl

/-- `dedupAppend` preserves distinctness of the problem list. -/
theorem dedupAppend_nodup (l : List String) (m : String) (h : l.Nodup) :
    (dedupAppend l m).Nodup := by
  unfold dedupAppend
  split_ifs with hm
  · exact h
  · exact List.Nodup.append h (List.nodup_singleton m) (by simpa using hm)

/-- If no loop element fails with an `AssertionError`, the assembler loop
keeps the problem list free of duplicates. -/
theorem foldl_assembleStep_nodup (elts : List XmlElement)
    (st : List String × List JsonModule × List UiModule)
    (hne : ∀ e ∈ elts, isAssertionFailure (convert_fuse_module e.tag e) = false)
    (hnd : st.1.Nodup) :
    (elts.foldl assembleStep st).1.Nodup := by
  induction elts generalizing st with
  | nil => exact hnd
  | cons e rest ih =>
      apply ih _ (fun x hx => hne x (List.mem_cons_of_mem e hx))
      cases hc : convert_fuse_module e.tag e with
      | ok ju => simpa [assembleStep, hc] using hnd
      | error err =>
          cases err with
          | assertionError m =>
              have := hne e (List.mem_cons_self e rest)
              rw [hc] at this
              simp [isAssertionFailure] at this
          | runtimeError m => simpa [assembleStep, hc] using dedupAppend_nodup _ _ hnd
          | indexError => simpa [assembleStep, hc] using dedupAppend_nodup _ _ hnd
          | typeError => simpa [assembleStep, hc] using dedupAppend_nodup _ _ hnd
          | valueError => simpa [assembleStep, hc] using dedupAppend_nodup _ _ hnd
          | attributeError => simpa [assembleStep, hc] using dedupAppend_nodup _ _ hnd
          | keyError => simpa [assembleStep, hc] using dedupAppend_nodup _ _ hnd
          | zeroDivisionError => simpa [assembleStep, hc] using dedupAppend_nodup _ _ hnd

/-- **C9 (counterexample)** — Converting a preset whose amplifier module id
is unknown yields the SAME diagnostic text twice (the amplifier slot is
converted twice, and the `AssertionError` branch appends without
deduplication), so the diagnostics list of one conversion does contain two
entries with the same message. -/
theorem c9_counterexample :
    (fuse_to_json fuse_doc_bad_amp).1 =
      ["Converter not found for Amplifier 999", "Converter not found for Amplifier 999"] ∧
    ¬ (fuse_to_json fuse_doc_bad_amp).1.Nodup :=
  ⟨rfl, by decide⟩

/-- **C9 (amended)** — Diagnostics arising from non-assertion exceptions are
deduplicated by message text within one preset conversion; only
`AssertionError` diagnostics (module-lookup failures, whose slot may repeat
because the amplifier element is converted twice) are appended without
deduplication.  When no loop element fails with an `AssertionError`, the
returned diagnostics list contains no duplicate message. -/
theorem c9_nonassertion_diagnostics_deduplicated
    (root amp stomp md dly rev : XmlElement)
    (hext : extractSlots root = .ok (amp, stomp, md, dly, rev))
    (h1 : isAssertionFailure (convert_fuse_module amp.tag amp) = false)
    (h2 : isAssertionFailure (convert_fuse_module stomp.tag stomp) = false)
    (h3 : isAssertionFailure (convert_fuse_module md.tag md) = false)
    (h4 : isAssertionFailure (convert_fuse_module dly.tag dly) = false)
    (h5 : isAssertionFailure (convert_fuse_module rev.tag rev) = false) :
    ((fuse_to_json root).1).Nodup := by
  unfold fuse_to_json
  rw [hext]
  apply foldl_assembleStep_nodup
  · intro e he
    simp only [List.mem_cons, List.not_mem_nil, or_false] at he
    rcases he with h | h | h | h | h | h <;> subst h <;> assumption
  · exact List.nodup_nil

/-- Witness for C9 on a document whose amplifier parameter is out of domain:
both conversions of the amplifier slot raise the same `RuntimeError`, and the
message appears only once. -/
theorem c9_witness :
    ((fuse_to_json fuse_doc_bad_param).1).Nodup ∧
    (fuse_to_json fuse_doc_bad_param).1 =
      ["Attempting to process Amplifier 83 param 0"] :=
  ⟨c9_nonassertion_diagnostics_deduplicated fuse_doc_bad_param
      fuse_amp_bad_param fuse_stomp_60 fuse_mod_45 fuse_delay_22 fuse_reverb_11
      rfl rfl rfl rfl rfl rfl,
   rfl⟩

/-- **C3** — Evaluation at a candidate whose canonicalization fails at the
missing `reverb` slot: the partially built canonical document is indeed
discarded (the call returns `None`), but the candidate document visible to
the caller is NOT restored to its original state: the `connections` key stays
deleted and the passthrough node's cleared parameter block and the rewritten
ids stay observable, because the source's `candidate_dict = original_dict`
only rebinds the local name (the retained deep copy never reaches the
caller), contradicting the restore intent stated in its own comment. -/
theorem c3_failed_canonicalization_mutates_caller :
    _make_preset_canonical lt_doc_fail =
      (["Missing expected node 4 : reverb"], .ok none, lt_doc_fail_after) ∧
    lt_doc_fail.connections = some [("preset", "stomp")] ∧
    lt_doc_fail_after.connections = none ∧
    ((lt_doc_fail.nodes.map PresetNode.dspUnitParameters).head? =
      some [("bypass", "true"), ("bypassMode", "false")]) ∧
    ((lt_doc_fail_after.nodes.map PresetNode.dspUnitParameters).head? = some []) ∧
    ((lt_doc_fail.nodes.map PresetNode.fenderId).head? = some "DUBS_Passthru") ∧
    ((lt_doc_fail_after.nodes.map PresetNode.fenderId).head? = some "Passthru") ∧
    lt_doc_fail_after ≠ lt_doc_fail :=
  ⟨rfl, rfl, rfl, rfl, rfl, rfl, rfl, by decide⟩

/-- The reordering loop's diagnostics and its returned node list depend on
the working node array only up to permutation: each slot selects its node by
`nodeId`, and selection succeeds exactly when the match is unique. -/
theorem canonLoop_perm (cats : List String) :
    ∀ (i : Nat) (l1 l2 acc : List PresetNode), l1.Perm l2 →
      (canonLoop i cats l1 acc).1 = (canonLoop i cats l2 acc).1 ∧
      (canonLoop i cats l1 acc).2.1 = (canonLoop i cats l2 acc).2.1 := by
  induction cats with
  | nil => intro i l1 l2 acc h; simp [canonLoop]
  | cons cat rest ih =>
      intro i l1 l2 acc h
      have hf : (l1.filter (fun n => n.nodeId == cat)).Perm
          (l2.filter (fun n => n.nodeId == cat)) := h.filter _
      rcases e1 : l1.filter (fun n => n.nodeId == cat) with _ | ⟨n, tl⟩
      · have e2 : l2.filter (fun n => n.nodeId == cat) = [] := by
          rw [e1] at hf
          exact List.Perm.eq_nil hf.symm
        simp [canonLoop, e1, e2]
      · rcases tl with _ | ⟨n2, tl2⟩
        · have e2 : l2.filter (fun n => n.nodeId == cat) = [n] := by
            rw [e1] at hf
            exact List.perm_singleton.mp hf.symm
          simp only [canonLoop, e1, e2]
          exact ih (i + 1) _ _ _ (h.map _)
        · have hlen := hf.length_eq
          rw [e1] at hlen
          rcases e2 : l2.filter (fun n => n.nodeId == cat) with _ | ⟨m, _ | ⟨m2, tl2b⟩⟩
          · rw [e2] at hlen
            simp at hlen
          · rw [e2] at hlen
            simp at hlen
          · simp [canonLoop, e1, e2]

/-- For a five-node candidate with its `connections` key present, the
canonicalization result is determined by the reordering loop: the canonical
document on success (connections deleted, nodes reordered), `None` on a
failed slot. -/
theorem canonResult_eval (d : PresetDoc) (cs : List (String × String))
    (h5 : d.nodes.length = 5) (hc : d.connections = some cs) :
    canonResult d =
      ((canonLoop 0 (required_order d.product_id) d.nodes []).2.1).map
        (fun reordered => { d with connections := none, nodes := reordered }) := by
  unfold canonResult _make_preset_canonical
  rcases hcl : canonLoop 0 (required_order d.product_id) d.nodes [] with ⟨diags, ro, st⟩
  cases ro <;> simp [h5, hc, hcl]

/-- **C6** — For every preset candidate that canonicalizes successfully, the
canonical document, its deterministic sorted-key serialization, and its
fingerprint are invariant under permutation of the `audioGraph.nodes` array:
supplying the same candidate with its nodes in a permuted order yields the
same canonical document, byte-identical serialized output and the same
fingerprint. -/
theorem c6_canonicalization_invariant_under_node_permutation
    (d1 : PresetDoc) (ns2 : List PresetNode) (c : PresetDoc)
    (hperm : d1.nodes.Perm ns2)
    (hok : canonResult d1 = some c) :
    canonResult { d1 with nodes := ns2 } = some c ∧
    Option.map serializeDoc (canonResult { d1 with nodes := ns2 })
      = Option.map serializeDoc (canonResult d1) ∧
    (∀ h : String → String,
      Option.map (fingerprint h) (canonResult { d1 with nodes := ns2 })
        = Option.map (fingerprint h) (canonResult d1)) := by
  have h5 : d1.nodes.length = 5 := by
    by_contra h5
    unfold canonResult _make_preset_canonical at hok
    simp [h5] at hok
  obtain ⟨cs, hc⟩ : ∃ cs, d1.connections = some cs := by
    cases hc : d1.connections with
    | none =>
        unfold canonResult _make_preset_canonical at hok
        simp [h5, hc] at hok
    | some cs => exact ⟨cs, rfl⟩
  have h5b : ns2.length = 5 := by rw [← hperm.length_eq]; exact h5
  have hres := (canonLoop_perm (required_order d1.product_id) 0 d1.nodes ns2 [] hperm).2
  have hmain : canonResult { d1 with nodes := ns2 } = canonResult d1 := by
    rw [canonResult_eval d1 cs h5 hc,
      canonResult_eval { d1 with nodes := ns2 } cs h5b hc]
    show ((canonLoop 0 (required_order d1.product_id) ns2 []).2.1).map _ = _
    rw [hres]
  exact ⟨hmain.trans hok, by rw [hmain], fun h => by rw [hmain]⟩

/-- Witness for C6: the concrete candidate with its first two nodes swapped
canonicalizes to the same document, serialization and fingerprint. -/
theorem c6_witness :
    canonResult lt_doc_ok_swapped = some lt_doc_ok_canonical ∧
    Option.map serializeDoc (canonResult lt_doc_ok_swapped)
      = Option.map serializeDoc (canonResult lt_doc_ok) ∧
    (∀ h : String → String,
      Option.map (fingerprint h) (canonResult lt_doc_ok_swapped)
        = Option.map (fingerprint h) (canonResult lt_doc_ok)) := by
  have h := c6_canonicalization_invariant_under_node_permutation
    lt_doc_ok lt_doc_ok_swapped.nodes lt_doc_ok_canonical
    (List.Perm.swap _ _ _) rfl
  exact ⟨h.1, h.2.1, h.2.2⟩

/-- Nodes related by `nodeRel` share their `nodeId`. -/
theorem nodeRel_nodeId {a b : PresetNode} (h : nodeRel a b) : a.nodeId = b.nodeId := by
  rcases h with h | ⟨h1, _, _⟩
  · rw [h]
  · exact h1

/-- Nodes related by `nodeRel` canonicalize identically: a passthrough node's
parameter block is cleared, so the parameters it carried cannot matter. -/
theorem nodeRel_canonicalize {a b : PresetNode} (h : nodeRel a b) :
    canonicalizeNode a = canonicalizeNode b := by
  rcases h with h | ⟨h1, h2, h3⟩
  · rw [h]
  · unfold canonicalizeNode
    have h3b : b.fenderId = "DUBS_Passthru" := by rw [← h2]; exact h3
    rw [h1, h2]
    simp [h3b]

/-- `nodeRel` is reflexive. -/
theorem nodeRel_refl (a : PresetNode) : nodeRel a a := Or.inl rfl

/-- Filtering by a `nodeId` predicate preserves `Forall₂ nodeRel`. -/
theorem forall2_filter_nodeId (cat : String) :
    ∀ {l1 l2 : List PresetNode}, List.Forall₂ nodeRel l1 l2 →
      List.Forall₂ nodeRel (l1.filter (fun n => n.nodeId == cat))
        (l2.filter (fun n => n.nodeId == cat)) := by
  intro l1 l2 h
  induction h with
  | nil => simp
  | @cons a b ta tb hab htl ih =>
      by_cases hp : b.nodeId == cat
      · have hpa : (a.nodeId == cat) = true := by rw [nodeRel_nodeId hab]; exact hp
        simpa [List.filter_cons, hpa, hp] using List.Forall₂.cons hab ih
      · have hpa : ¬ ((a.nodeId == cat) = true) := by rw [nodeRel_nodeId hab]; exact hp
        simpa [List.filter_cons, hpa, hp] using ih

/-- Mapping the per-slot update preserves `Forall₂ nodeRel`. -/
theorem forall2_map_update (cat : String) :
    ∀ {l1 l2 : List PresetNode}, List.Forall₂ nodeRel l1 l2 →
      List.Forall₂ nodeRel
        (l1.map (fun m => if m.nodeId == cat then canonicalizeNode m else m))
        (l2.map (fun m => if m.nodeId == cat then canonicalizeNode m else m)) := by
  intro l1 l2 h
  induction h with
  | nil => simp
  | @cons a b ta tb hab htl ih =>
      refine List.Forall₂.cons ?_ ih
      by_cases hp : b.nodeId == cat
      · have hpa : (a.nodeId == cat) = true := by rw [nodeRel_nodeId hab]; exact hp
        simp only [hpa, hp, if_true]
        exact Or.inl (nodeRel_canonicalize hab)
      · have hpa : ¬ ((a.nodeId == cat) = true) := by rw [nodeRel_nodeId hab]; exact hp
        simp only [hpa, hp, if_neg, ite_false]
        exact hab

/-- The reordering loop's diagnostics and returned node list coincide on two
working arrays related by `nodeRel`. -/
theorem canonLoop_forall2 (cats : List String) :
    ∀ (i : Nat) (l1 l2 acc : List PresetNode), List.Forall₂ nodeRel l1 l2 →
      (canonLoop i cats l1 acc).1 = (canonLoop i cats l2 acc).1 ∧
      (canonLoop i cats l1 acc).2.1 = (canonLoop i cats l2 acc).2.1 := by
  induction cats with
  | nil => intro i l1 l2 acc h; simp [canonLoop]
  | cons cat rest ih =>
      intro i l1 l2 acc h
      have hf := forall2_filter_nodeId cat h
      rcases e1 : l1.filter (fun n => n.nodeId == cat) with _ | ⟨n, tl⟩
      · have e2 : l2.filter (fun n => n.nodeId == cat) = [] := by
          have hl := hf.length_eq
          rw [e1] at hl
          exact List.length_eq_zero.mp hl.symm
        simp [canonLoop, e1, e2]
      · rcases tl with _ | ⟨n2, tl2⟩
        · obtain ⟨m, e2, hnm⟩ : ∃ m, l2.filter (fun n => n.nodeId == cat) = [m] ∧ nodeRel n m := by
            rw [e1, List.forall₂_cons_left_iff] at hf
            obtain ⟨m, ltl, hnm, hnil, heq⟩ := hf
            rw [List.forall₂_nil_left_iff] at hnil
            exact ⟨m, by rw [heq, hnil], hnm⟩
          rw [show (canonLoop i (cat :: rest) l1 acc) =
              canonLoop (i + 1) rest
                (l1.map (fun m => if m.nodeId == cat then canonicalizeNode m else m))
                (acc ++ [canonicalizeNode n]) by simp [canonLoop, e1],
            show (canonLoop i (cat :: rest) l2 acc) =
              canonLoop (i + 1) rest
                (l2.map (fun m2 => if m2.nodeId == cat then canonicalizeNode m2 else m2))
                (acc ++ [canonicalizeNode m]) by simp [canonLoop, e2]]
          rw [nodeRel_canonicalize hnm]
          exact ih (i + 1) _ _ _ (forall2_map_update cat h)
        · have hlen := hf.length_eq
          rw [e1] at hlen
          rcases e2 : l2.filter (fun n => n.nodeId == cat) with _ | ⟨m, _ | ⟨m2, tl2b⟩⟩
          · rw [e2] at hlen
            simp at hlen
          · rw [e2] at hlen
            simp at hlen
          · simp [canonLoop, e1, e2]

/-- **C7** — Two preset candidates that differ only in the parameter block a
passthrough (`DUBS_Passthru`) node carries canonicalize to the same
document, hence the same serialized text and the same fingerprint, because
canonicalization clears every passthrough node's parameter block to an empty
map. -/
theorem c7_passthrough_parameters_do_not_distinguish
    (d1 : PresetDoc) (pre post : List PresetNode) (n : PresetNode)
    (ps2 : List (String × String)) (c : PresetDoc)
    (hn : d1.nodes = pre ++ n :: post)
    (hpass : n.fenderId = "DUBS_Passthru")
    (hok : canonResult d1 = some c) :
    canonResult
        { d1 with nodes := pre ++ { n with dspUnitParameters := ps2 } :: post } = some c ∧
    Option.map serializeDoc
        (canonResult { d1 with nodes := pre ++ { n with dspUnitParameters := ps2 } :: post })
      = Option.map serializeDoc (canonResult d1) ∧
    (∀ h : String → String,
      Option.map (fingerprint h)
          (canonResult { d1 with nodes := pre ++ { n with dspUnitParameters := ps2 } :: post })
        = Option.map (fingerprint h) (canonResult d1)) ∧
    (canonicalizeNode n).dspUnitParameters = [] ∧
    (canonicalizeNode { n with dspUnitParameters := ps2 }).dspUnitParameters = [] := by
  have h5 : d1.nodes.length = 5 := by
    by_contra h5
    unfold canonResult _make_preset_canonical at hok
    simp [h5] at hok
  obtain ⟨cs, hc⟩ : ∃ cs, d1.connections = some cs := by
    cases hc : d1.connections with
    | none =>
        unfold canonResult _make_preset_canonical at hok
        simp [h5, hc] at hok
    | some cs => exact ⟨cs, rfl⟩
  have hrel : List.Forall₂ nodeRel d1.nodes
      (pre ++ { n with dspUnitParameters := ps2 } :: post) := by
    rw [hn]
    refine List.rel_append (List.forall₂_same.mpr (fun x _ => nodeRel_refl x))
      (List.Forall₂.cons (Or.inr ⟨rfl, rfl, hpass⟩)
        (List.forall₂_same.mpr (fun x _ => nodeRel_refl x)))
  have h5b : (pre ++ { n with dspUnitParameters := ps2 } :: post).length = 5 := by
    rw [← hrel.length_eq]
    exact h5
  have hres := (canonLoop_forall2 (required_order d1.product_id) 0 d1.nodes
    (pre ++ { n with dspUnitParameters := ps2 } :: post) [] hrel).2
  have hmain :
      canonResult { d1 with nodes := pre ++ { n with dspUnitParameters := ps2 } :: post }
        = canonResult d1 := by
    rw [canonResult_eval d1 cs h5 hc,
      canonResult_eval { d1 with nodes := pre ++ { n with dspUnitParameters := ps2 } :: post }
        cs h5b hc]
    show ((canonLoop 0 (required_order d1.product_id)
        (pre ++ { n with dspUnitParameters := ps2 } :: post) []).2.1).map _ = _
    rw [hres]
  refine ⟨hmain.trans hok, by rw [hmain], fun h => by rw [hmain], ?_, ?_⟩
  · simp [canonicalizeNode, hpass]
  · simp [canonicalizeNode, hpass]

/-- Witness for C7: the concrete candidate and its bypass-free variant
canonicalize to the same document and serialization. -/
theorem c7_witness :
    canonResult lt_doc_ok_nobypass = some lt_doc_ok_canonical ∧
    Option.map serializeDoc (canonResult lt_doc_ok_nobypass)
      = Option.map serializeDoc (canonResult lt_doc_ok) := by
  have h := c7_passthrough_parameters_do_not_distinguish lt_doc_ok []
    [{ nodeId := "mod", fenderId := "DUBS_Vibratone", dspUnitParameters := [] },
     { nodeId := "amp", fenderId := "DUBS_MustangDeluxe65", dspUnitParameters := [] },
     { nodeId := "delay", fenderId := "DUBS_MonoDelay", dspUnitParameters := [] },
     { nodeId := "reverb", fenderId := "DUBS_ReverbSpring65", dspUnitParameters := [] }]
    { nodeId := "stomp", fenderId := "DUBS_Passthru",
      dspUnitParameters := [("bypass", "true"), ("bypassMode", "false")] }
    [] lt_doc_ok_canonical rfl rfl rfl
  exact ⟨h.1, h.2.1⟩

/-- The per-slot in-place update never changes a node's `nodeId`, so the
count of nodes matching any category is invariant across loop steps. -/
theorem countP_map_update (cat0 cat : String) (nodes : List PresetNode) :
    ((nodes.map (fun m => if m.nodeId == cat then canonicalizeNode m else m)).countP
      (fun n => n.nodeId == cat0)) = nodes.countP (fun n => n.nodeId == cat0) := by
  rw [List.countP_map]
  apply List.countP_congr
  intro a _
  by_cases hp : a.nodeId == cat <;> simp [Function.comp, hp, canonicalizeNode]

/-- When slot `k` of the remaining categories does not match exactly one node
and every earlier slot matches exactly one, the reordering loop stops at slot
`k` with its "Missing expected node" diagnostic and returns no node list. -/
theorem canonLoop_first_bad (cats : List String) :
    ∀ (k i : Nat) (nodes acc : List PresetNode),
      k < cats.length →
      nodes.countP (fun n => n.nodeId == cats.getD k "") ≠ 1 →
      (∀ j, j < k → nodes.countP (fun n => n.nodeId == cats.getD j "") = 1) →
      (canonLoop i cats nodes acc).1 =
        ["Missing expected node " ++ toString (i + k) ++ " : " ++ cats.getD k ""] ∧
      (canonLoop i cats nodes acc).2.1 = none := by
  induction cats with
  | nil => intro k i nodes acc hk; exact absurd hk (by simp)
  | cons cat rest ih =>
      intro k i nodes acc hk h0 hbef
      cases k with
      | zero =>
          have hg : ((cat :: rest).getD 0 "") = cat := rfl
          rw [hg] at h0
          rcases hfl : nodes.filter (fun n => n.nodeId == cat) with _ | ⟨x, _ | ⟨y, tl⟩⟩
          · constructor
            · simp [canonLoop, hfl]
            · simp [canonLoop, hfl]
          · exact absurd (by rw [List.countP_eq_length_filter, hfl]; rfl : nodes.countP
              (fun n => n.nodeId == cat) = 1) h0
          · constructor
            · simp [canonLoop, hfl]
            · simp [canonLoop, hfl]
      | succ k2 =>
          have h1 : nodes.countP (fun n => n.nodeId == cat) = 1 := by
            simpa using hbef 0 (Nat.succ_pos k2)
          obtain ⟨n, hn⟩ : ∃ n, nodes.filter (fun n => n.nodeId == cat) = [n] := by
            apply List.length_eq_one.mp
            rw [← List.countP_eq_length_filter]
            exact h1
          have hstep : canonLoop i (cat :: rest) nodes acc =
              canonLoop (i + 1) rest
                (nodes.map (fun m => if m.nodeId == cat then canonicalizeNode m else m))
                (acc ++ [canonicalizeNode n]) := by
            simp [canonLoop, hn]
          have hrec := ih k2 (i + 1)
            (nodes.map (fun m => if m.nodeId == cat then canonicalizeNode m else m))
            (acc ++ [canonicalizeNode n])
            (by simpa using hk)
            (by rw [countP_map_update]; simpa using h0)
            (fun j hj => by
              rw [countP_map_update]
              simpa using hbef (j + 1) (Nat.succ_lt_succ hj))
          have harith : i + 1 + k2 = i + (k2 + 1) := by omega
          rw [hstep]
          rw [harith] at hrec
          simpa using hrec

/-- **C8 (amended)** — A five-node preset candidate with its connections
present whose node set lacks a node for some required category `k` of its
product family's fixed order fails canonicalization: the call returns `None`,
the candidate is excluded by the scanner's classification (no type/name pair,
never silently substituted), and the single printed diagnostic names the
FIRST slot whose category does not match exactly one node — which is the
missing slot `k` itself when every earlier slot matches exactly once, but can
be an earlier duplicated category otherwise. -/
theorem c8_missing_required_category_rejected
    (d : PresetDoc) (cs : List (String × String)) (k : Nat)
    (h5 : d.nodes.length = 5)
    (hc : d.connections = some cs)
    (hk : k < (required_order d.product_id).length)
    (hmiss : d.nodes.countP
      (fun n => n.nodeId == (required_order d.product_id).getD k "") = 0) :
    (_make_preset_canonical d).2.1 = .ok none ∧
    canonResult d = none ∧
    _get_node_type_and_name_preset d = none ∧
    (∃ j, j ≤ k ∧
      d.nodes.countP
        (fun n => n.nodeId == (required_order d.product_id).getD j "") ≠ 1 ∧
      (∀ j2, j2 < j → d.nodes.countP
        (fun n => n.nodeId == (required_order d.product_id).getD j2 "") = 1) ∧
      (_make_preset_canonical d).1 =
        ["Missing expected node " ++ toString j ++ " : " ++
          (required_order d.product_id).getD j ""]) ∧
    ((∀ j, j < k → d.nodes.countP
        (fun n => n.nodeId == (required_order d.product_id).getD j "") = 1) →
      (_make_preset_canonical d).1 =
        ["Missing expected node " ++ toString k ++ " : " ++
          (required_order d.product_id).getD k ""]) := by
  have hex : ∃ j, j < (required_order d.product_id).length ∧
      d.nodes.countP (fun n => n.nodeId == (required_order d.product_id).getD j "") ≠ 1 :=
    ⟨k, hk, by simp only [hmiss]; decide⟩
  have hjk : Nat.find hex ≤ k := Nat.find_min' hex ⟨hk, by simp only [hmiss]; decide⟩
  have hjspec := Nat.find_spec hex
  have hjmin : ∀ j2, j2 < Nat.find hex → d.nodes.countP
      (fun n => n.nodeId == (required_order d.product_id).getD j2 "") = 1 := by
    intro j2 hj2
    have hnot := Nat.find_min hex hj2
    by_contra hne
    exact hnot ⟨lt_of_lt_of_le (lt_of_lt_of_le hj2 hjk) (le_of_lt hk), hne⟩
  have hloop := canonLoop_first_bad (required_order d.product_id) (Nat.find hex) 0
    d.nodes [] hjspec.1 hjspec.2 hjmin
  rw [Nat.zero_add] at hloop
  rcases hcl : canonLoop 0 (required_order d.product_id) d.nodes [] with ⟨diags, ro, st⟩
  rw [hcl] at hloop
  obtain ⟨hdiags, hro⟩ := hloop
  simp only at hdiags hro
  subst hro
  have hmpc : _make_preset_canonical d =
      (diags, .ok none, { d with connections := none, nodes := st }) := by
    unfold _make_preset_canonical
    simp [h5, hc, hcl]
  refine ⟨by rw [hmpc], ?_, ?_, ?_, ?_⟩
  · unfold canonResult
    rw [hmpc]
  · unfold _get_node_type_and_name_preset
    rw [hmpc]
  · exact ⟨Nat.find hex, hjk, hjspec.2, hjmin, by rw [hmpc]; exact hdiags⟩
  · intro hall
    have hke : Nat.find hex = k := by
      rcases lt_or_eq_of_le hjk with hlt | heq
      · exact absurd (hall _ hlt) hjspec.2
      · exact heq
    rw [hmpc]
    rw [hke] at hdiags
    exact hdiags

/-- Witness for C8 on the concrete candidate that lacks an `amp` node
(required slot index 2 of the mustang order; slots 0 and 1 match uniquely, so
the diagnostic names the missing slot itself). -/
theorem c8_witness :
    (_make_preset_canonical lt_doc_missing_amp).2.1 = .ok none ∧
    canonResult lt_doc_missing_amp = none ∧
    _get_node_type_and_name_preset lt_doc_missing_amp = none ∧
    (∃ j, j ≤ 2 ∧
      lt_doc_missing_amp.nodes.countP
        (fun n => n.nodeId == (required_order lt_doc_missing_amp.product_id).getD j "") ≠ 1 ∧
      (∀ j2, j2 < j → lt_doc_missing_amp.nodes.countP
        (fun n => n.nodeId == (required_order lt_doc_missing_amp.product_id).getD j2 "") = 1) ∧
      (_make_preset_canonical lt_doc_missing_amp).1 =
        ["Missing expected node " ++ toString j ++ " : " ++
          (required_order lt_doc_missing_amp.product_id).getD j ""]) ∧
    ((∀ j, j < 2 → lt_doc_missing_amp.nodes.countP
        (fun n => n.nodeId == (required_order lt_doc_missing_amp.product_id).getD j "") = 1) →
      (_make_preset_canonical lt_doc_missing_amp).1 = ["Missing expected node 2 : amp"]) :=
  c8_missing_required_category_rejected lt_doc_missing_amp [("preset", "stomp")] 2 (by decide) rfl (by decide) (by decide)

/-- **C8 (counterexample)** — A five-node candidate with two `stomp` nodes
and no `amp` node lacks the required category `amp` (slot 2) and is indeed
rejected and excluded, but the printed diagnostic is
"Missing expected node 0 : stomp" — it names the duplicated slot 0, not the
missing slot — so the diagnostic does not name the missing slot. -/
theorem c8_counterexample :
    lt_doc_two_stomps.nodes.length = 5 ∧
    lt_doc_two_stomps.nodes.countP (fun n => n.nodeId == "amp") = 0 ∧
    (required_order lt_doc_two_stomps.product_id).getD 2 "" = "amp" ∧
    (_make_preset_canonical lt_doc_two_stomps).2.1 = .ok none ∧
    _get_node_type_and_name_preset lt_doc_two_stomps = none ∧
    (_make_preset_canonical lt_doc_two_stomps).1 = ["Missing expected node 0 : stomp"] ∧
    ¬ ((_make_preset_canonical lt_doc_two_stomps).1 = ["Missing expected node 2 : amp"]) :=
  ⟨rfl, rfl, rfl, rfl, rfl, rfl, by decide⟩
